import Mathlib

/-!
# ESP32 home automation: the WiFi provisioning manager

A verification development for `HomeAutomationESP32/WiFiManager.h` and
`HomeAutomationESP32/WiFiManager.cpp`.

The class `ModernWiFiManager` is embedded as pure functions over an explicit
`World`: the two member variables, the EEPROM, the values the radio and the
clock will report, and the ordered list of calls made to the radio, the DNS
responder, the HTTP server and the chip.  EEPROM reads and writes act on the
EEPROM of the world; of the storage calls only `commit` is listed among the
calls.  `Serial` logging is not recorded.
-/

namespace ModernWiFiManager

/-! ## Strings -/

/-- Arduino `String`: a sequence of bytes. -/
abbrev AString := List Nat

/-- A string literal of the source, as its bytes (all literals are ASCII). -/
def lit (s : String) : AString := s.toList.map Char.toNat

/-- A well-formed C string: every byte is a non-zero value below 256. -/
def IsCStr (s : AString) : Prop := ∀ b ∈ s, 0 < b ∧ b < 256

instance (s : AString) : Decidable (IsCStr s) := by
  unfold IsCStr
  infer_instance

/-- The conversion `String(const char*)`: the bytes before the first zero. -/
def cstr (buf : List Nat) : AString := buf.takeWhile (fun b => b != 0)

/-! ## EEPROM -/

/-- The `EEPROM` object: `data` is the buffer that `read` and `write` work on,
`flash` is what the last `commit` made durable.  The size given to
`EEPROM.begin` by the sketch covers every address the manager uses. -/
structure EEPROMClass where
  data : Nat → Nat
  flash : Nat → Nat

namespace EEPROMClass

/-- The call `EEPROM.read(address)`. -/
def read (e : EEPROMClass) (address : Nat) : Nat := e.data address

/-- The call `EEPROM.write(address, val)`; `val` is a `uint8_t`. -/
def write (e : EEPROMClass) (address val : Nat) : EEPROMClass :=
  { e with data := fun a => if a = address then val % 256 else e.data a }

/-- The call `EEPROM.commit()`. -/
def commit (e : EEPROMClass) : EEPROMClass :=
  { e with flash := e.data }

end EEPROMClass

/-! ## Constants of `WiFiManager.h` -/

def WIFI_SSID_ADDR : Nat := 100
def WIFI_PASS_ADDR : Nat := 200
def WIFI_CONFIGURED_ADDR : Nat := 300
def MAX_SSID_LENGTH : Nat := 32
def MAX_PASS_LENGTH : Nat := 64
def CONFIG_MODE_TIMEOUT : Nat := 300000

/-! ## Credential store -/

/-- The loop `for (int i = 0; i < n; i++) body(i)`. -/
def forLoop {σ : Type} (n : Nat) (body : Nat → σ → σ) (s : σ) : σ :=
  (List.range n).foldl (fun acc i => body i acc) s

/-- The storage effect of `saveWiFiCredentials(ssid, password)`: both slots are
zeroed, then at most `MAX - 1` characters of each string are written, then the
configured flag is set and the buffer committed.  The loop condition
`i < s.length() && i < MAX - 1` is the bound `min s.length (MAX - 1)`. -/
def saveWiFiCredentials (e : EEPROMClass) (ssid password : AString) : EEPROMClass :=
  let e1 := forLoop MAX_SSID_LENGTH (fun i e => e.write (WIFI_SSID_ADDR + i) 0) e
  let e2 := forLoop MAX_PASS_LENGTH (fun i e => e.write (WIFI_PASS_ADDR + i) 0) e1
  let e3 := forLoop (min ssid.length (MAX_SSID_LENGTH - 1))
    (fun i e => e.write (WIFI_SSID_ADDR + i) (ssid.getD i 0)) e2
  let e4 := forLoop (min password.length (MAX_PASS_LENGTH - 1))
    (fun i e => e.write (WIFI_PASS_ADDR + i) (password.getD i 0)) e3
  (e4.write WIFI_CONFIGURED_ADDR 1).commit

/-- The buffer filled by `for (i < n) buf[i] = EEPROM.read(addr + i)`. -/
def readBuf (e : EEPROMClass) (addr n : Nat) : List Nat :=
  (List.range n).map (fun i => e.read (addr + i))

/-- The function `loadWiFiCredentials(ssid, password)`: the returned flag and the
two reference parameters, which are left alone when the flag byte is not 1. -/
def loadWiFiCredentials (e : EEPROMClass) (ssid password : AString) : Bool × AString × AString :=
  if e.read WIFI_CONFIGURED_ADDR ≠ 1 then (false, ssid, password)
  else
    let ssidBuf := (readBuf e WIFI_SSID_ADDR MAX_SSID_LENGTH).set (MAX_SSID_LENGTH - 1) 0
    let passBuf := (readBuf e WIFI_PASS_ADDR MAX_PASS_LENGTH).set (MAX_PASS_LENGTH - 1) 0
    let ssid1 := cstr ssidBuf
    let password1 := cstr passBuf
    (decide (ssid1.length > 0), ssid1, password1)

/-- The storage effect of `clearWiFiCredentials()`. -/
def clearWiFiCredentials (e : EEPROMClass) : EEPROMClass :=
  (e.write WIFI_CONFIGURED_ADDR 0).commit

/-! ## The radio, the server and the chip -/

/-- The Arduino core's connection status `wl_status_t`. -/
inductive wl_status_t where
  | WL_NO_SHIELD
  | WL_IDLE_STATUS
  | WL_NO_SSID_AVAIL
  | WL_SCAN_COMPLETED
  | WL_CONNECTED
  | WL_CONNECT_FAILED
  | WL_CONNECTION_LOST
  | WL_DISCONNECTED
  deriving DecidableEq, Repr

/-- The Arduino core's radio mode `wifi_mode_t`. -/
inductive wifi_mode_t where
  | WIFI_OFF
  | WIFI_STA
  | WIFI_AP
  | WIFI_AP_STA
  deriving DecidableEq, Repr

/-- The number `String(mode)` prints for a radio mode. -/
def wifi_mode_t.toNat : wifi_mode_t → Nat
  | .WIFI_OFF => 0
  | .WIFI_STA => 1
  | .WIFI_AP => 2
  | .WIFI_AP_STA => 3

/-- The request method seen by the HTTP server. -/
inductive HTTPMethod where
  | HTTP_GET
  | HTTP_POST
  | HTTP_OTHER
  deriving DecidableEq, Repr

/-- The encryption type of a scanned network, as its numeric code. -/
abbrev wifi_auth_mode_t := Nat

def WIFI_AUTH_OPEN : wifi_auth_mode_t := 0

/-- What one call of `WiFi.scanNetworks` makes available: the returned count
(negative when the scan failed) and the accessors `SSID(i)`, `RSSI(i)` and
`encryptionType(i)`. -/
structure ScanReport where
  n : Int
  SSID : Nat → AString
  RSSI : Nat → Int
  encryptionType : Nat → wifi_auth_mode_t

/-- A client request as the HTTP server hands it to a handler. -/
structure Request where
  method : HTTPMethod
  uri : AString
  args : List (AString × AString)
  deriving DecidableEq, Repr

/-- The call `server.hasArg(name)`. -/
def Request.hasArg (r : Request) (name : AString) : Bool :=
  r.args.any (fun p => p.1 == name)

/-- The call `server.arg(name)`: the first value of that name, else the empty string. -/
def Request.arg (r : Request) (name : AString) : AString :=
  match r.args.find? (fun p => p.1 == name) with
  | some p => p.2
  | none => []

/-- The calls the manager makes on its collaborators, in program order. -/
inductive Event where
  | wifiBegin (ssid password : AString)
  | wifiStatus
  | wifiLocalIP
  | wifiDisconnect
  | wifiMode (m : wifi_mode_t)
  | wifiGetMode
  | softAPConfig (ip gateway subnet : List Nat)
  | softAP (ssid password : AString)
  | softAPgetStationNum
  | scanNetworks (async showHidden : Bool)
  | scanDelete
  | dnsStart (port : Nat) (domain : AString) (ip : List Nat)
  | dnsProcessNextRequest
  | serverOn (uri : AString) (method : Option HTTPMethod)
  | serverOnNotFound
  | serverBegin
  | sendHeader (name value : AString)
  | send (code : Nat) (contentType body : AString)
  | getFreeHeap
  | delay (ms : Nat)
  | eepromCommit
  | restart
  deriving DecidableEq, Repr

/-! ## Access point configuration of `WiFiManager.h` -/

def AP_SSID : AString := lit "SmartHome-Setup"
def AP_PASSWORD : AString := lit ""
def AP_IP : List Nat := [192, 168, 4, 1]
def AP_GATEWAY : List Nat := [192, 168, 4, 1]
def AP_SUBNET : List Nat := [255, 255, 255, 0]

/-! ## The world -/

/-- The manager together with its surroundings.

* `isConfigMode`, `configModeStartTime`: the member variables.
* `EEPROM`: the storage.
* `clock`: milliseconds since power-up; `millis()` is its low 32 bits.
* `epoch`: how many `delay` calls have returned so far.
* `wlStatus`: the status the radio reports during each wait period;
  `WiFi.status()` returns `wlStatus epoch`, so two polls with no `delay`
  between them agree and the status may change across every `delay`.
* `scans`, `scanCount`: what the k-th call of `WiFi.scanNetworks` reports.
* `reportedMode`, `stationNum`, `freeHeap`: what the driver and the chip answer
  to `WiFi.getMode()`, `WiFi.softAPgetStationNum()` and `ESP.getFreeHeap()`.
* `html`: the static page returned by `getModernHTML()`.
* `trace`: the calls made so far.
* `restarted`: `ESP.restart()` has been called; it does not return. -/
structure World where
  isConfigMode : Bool
  configModeStartTime : Nat
  EEPROM : EEPROMClass
  clock : Nat
  epoch : Nat
  wlStatus : Nat → wl_status_t
  scans : Nat → ScanReport
  scanCount : Nat
  reportedMode : wifi_mode_t
  stationNum : Nat
  freeHeap : Nat
  html : AString
  trace : List Event
  restarted : Bool

namespace World

/-- Record a call. -/
def emit (w : World) (ev : Event) : World :=
  { w with trace := w.trace ++ [ev] }

/-- The call `delay(ms)`. -/
def delay (w : World) (ms : Nat) : World :=
  { w with clock := w.clock + ms, epoch := w.epoch + 1, trace := w.trace ++ [Event.delay ms] }

/-- The call `millis()`: a 32-bit `unsigned long`. -/
def millis (w : World) : Nat := w.clock % 2 ^ 32

/-- The call `WiFi.status()`. -/
def status (w : World) : wl_status_t × World :=
  (w.wlStatus w.epoch, w.emit Event.wifiStatus)

/-- The call `ESP.restart()`. -/
def restart (w : World) : World :=
  { w with trace := w.trace ++ [Event.restart], restarted := true }

/-- The call `saveWiFiCredentials(ssid, password)` made in a world. -/
def save (w : World) (ssid password : AString) : World :=
  { w with EEPROM := saveWiFiCredentials w.EEPROM ssid password,
           trace := w.trace ++ [Event.eepromCommit] }

/-- The call `clearWiFiCredentials()` made in a world. -/
def clear (w : World) : World :=
  { w with EEPROM := clearWiFiCredentials w.EEPROM,
           trace := w.trace ++ [Event.eepromCommit] }

end World

/-- Subtraction of two `unsigned long` values (32 bits). -/
def sub32 (a b : Nat) : Nat := (a % 2 ^ 32 + 2 ^ 32 - b % 2 ^ 32) % 2 ^ 32

/-- The conversion `String(int)`. -/
def decStr (i : Int) : AString := lit (toString i)

/-! ## Connecting with the saved credential -/

/-- The loop `while (WiFi.status() != WL_CONNECTED && attempts < bound)
{ delay(500); attempts++; }` of `connectToWiFi`, by the number of attempts that
remain (`bound - attempts`).  Returns the final `attempts`. -/
def bootLoop : Nat → Nat → World → Nat × World
  | 0, attempts, w => (attempts, w.status.2)
  | remaining + 1, attempts, w =>
    let r := w.status
    if r.1 ≠ wl_status_t.WL_CONNECTED then
      bootLoop remaining (attempts + 1) (r.2.delay 500)
    else (attempts, r.2)

/-- The function `connectToWiFi()` with the loop bound as a parameter. -/
def connectToWiFiWith (bound : Nat) (w : World) : Bool × World :=
  let r := loadWiFiCredentials w.EEPROM [] []
  if !r.1 then (false, w)
  else
    let w1 := w.emit (Event.wifiBegin r.2.1 r.2.2)
    let l := bootLoop bound 0 w1
    let s := l.2.status
    if s.1 = wl_status_t.WL_CONNECTED then (true, s.2.emit Event.wifiLocalIP)
    else (false, s.2)

/-- The function `connectToWiFi()`. -/
def connectToWiFi (w : World) : Bool × World := connectToWiFiWith 20 w

/-! ## Config mode -/

/-- The function `startConfigMode()`. -/
def startConfigMode (w : World) : World :=
  let w := { w with isConfigMode := true }
  let w := { w with configModeStartTime := w.millis }
  let w := w.emit Event.wifiDisconnect
  let w := w.delay 100
  let w := w.emit (Event.wifiMode wifi_mode_t.WIFI_AP)
  let w := w.emit (Event.softAPConfig AP_IP AP_GATEWAY AP_SUBNET)
  let w := w.emit (Event.softAP AP_SSID AP_PASSWORD)
  let w := w.emit (Event.dnsStart 53 (lit "*") AP_IP)
  let w := w.emit (Event.serverOn (lit "/") none)
  let w := w.emit (Event.serverOn (lit "/scan") none)
  let w := w.emit (Event.serverOn (lit "/status") none)
  let w := w.emit (Event.serverOn (lit "/debug") none)
  let w := w.emit (Event.serverOn (lit "/connect") (some HTTPMethod.HTTP_POST))
  let w := w.emit Event.serverOnNotFound
  w.emit Event.serverBegin

/-- The function `begin()`. -/
def begin (w : World) : World :=
  let r := connectToWiFi w
  if r.1 then r.2 else startConfigMode r.2

/-- The function `isInConfigMode()`. -/
def isInConfigMode (w : World) : Bool := w.isConfigMode

/-- The function `isWiFiConfigured()`. -/
def isWiFiConfigured (w : World) : Bool :=
  decide (w.EEPROM.read WIFI_CONFIGURED_ADDR = 1)

/-- The function `resetWiFiSettings()`. -/
def resetWiFiSettings (w : World) : World :=
  ((w.clear).delay 1000).restart

/-! ## Scanning -/

/-- One pass of the loop body of `getWiFiScanResults` for network `i`. -/
def scanEntry (r : ScanReport) (i : Nat) (json : AString) : AString :=
  let json := if i > 0 then json ++ lit "," else json
  let json := json ++ lit "\x7b"
  let json := json ++ (lit "\"ssid\":\"" ++ r.SSID i ++ lit "\",")
  let json := json ++ (lit "\"rssi\":" ++ decStr (r.RSSI i) ++ lit ",")
  let json := json ++ (lit "\"security\":\""
    ++ (if r.encryptionType i = WIFI_AUTH_OPEN then lit "Open" else lit "Secured") ++ lit "\"")
  json ++ lit "\x7d"

/-- The function `getWiFiScanResults()`. -/
def getWiFiScanResults (w : World) : AString × World :=
  let w := w.emit Event.wifiGetMode
  let w := w.emit (Event.wifiMode wifi_mode_t.WIFI_AP_STA)
  let w := w.delay 100
  let r := w.scans w.scanCount
  let w := { w with scanCount := w.scanCount + 1 }
  let w := w.emit (Event.scanNetworks false true)
  let json := lit "\x7b\"networks\":["
  let json := if r.n > 0 then forLoop r.n.toNat (scanEntry r) json else json
  let json := json ++ lit "]\x7d"
  let w := w.emit Event.scanDelete
  let w := w.emit (Event.wifiMode wifi_mode_t.WIFI_AP)
  let w := w.delay 100
  let w := w.emit (Event.softAPConfig AP_IP AP_GATEWAY AP_SUBNET)
  let w := w.emit (Event.softAP AP_SSID AP_PASSWORD)
  (json, w)

/-- The `try` block of `handleWiFiScan`: nothing in `getWiFiScanResults` throws,
so it always completes. -/
def tryScan (w : World) : Except Unit (AString × World) :=
  Except.ok (getWiFiScanResults w)

/-- The function `handleWiFiScan()`. -/
def handleWiFiScan (w : World) : World :=
  let w := w.emit (Event.sendHeader (lit "Access-Control-Allow-Origin") (lit "*"))
  let w := w.emit (Event.sendHeader (lit "Access-Control-Allow-Methods") (lit "GET, POST, OPTIONS"))
  let w := w.emit (Event.sendHeader (lit "Access-Control-Allow-Headers") (lit "Content-Type"))
  match tryScan w with
  | Except.ok r => r.2.emit (Event.send 200 (lit "application/json") r.1)
  | Except.error _ =>
    w.emit (Event.send 500 (lit "application/json")
      (lit "\x7b\"networks\":[],\"error\":\"Scan failed\"\x7d"))

/-! ## Connecting with a submitted credential -/

/-- The loop of `handleWiFiConnect`: as `bootLoop`, with the two checks after
the wait that leave the loop early. -/
def userLoop : Nat → Nat → World → Nat × World
  | 0, attempts, w => (attempts, w.status.2)
  | remaining + 1, attempts, w =>
    let r := w.status
    if r.1 ≠ wl_status_t.WL_CONNECTED then
      let w1 := r.2.delay 500
      let c1 := w1.status
      if c1.1 = wl_status_t.WL_CONNECT_FAILED then (attempts + 1, c1.2)
      else
        let c2 := c1.2.status
        if c2.1 = wl_status_t.WL_NO_SSID_AVAIL then (attempts + 1, c2.2)
        else userLoop remaining (attempts + 1) c2.2
    else (attempts, r.2)

/-- The `switch (WiFi.status())` that completes the failure message. -/
def errorMsg (s : wl_status_t) : AString :=
  lit "Failed to connect. " ++
    (match s with
     | wl_status_t.WL_CONNECT_FAILED => lit "Wrong password?"
     | wl_status_t.WL_NO_SSID_AVAIL => lit "Network not found."
     | wl_status_t.WL_CONNECTION_LOST => lit "Connection lost."
     | _ => lit "Please check credentials.")

/-- The part of `handleWiFiConnect` after the poll loop: the success branch and
the failure branch. -/
def connectOutcome (ssid password : AString) (w : World) : World :=
  let s := w.status
  if s.1 = wl_status_t.WL_CONNECTED then
    let w := s.2.emit Event.wifiLocalIP
    let w := w.save ssid password
    let w := w.emit (Event.send 200 (lit "application/json")
      (lit "\x7b\"success\":true,\"message\":\"Connected successfully! Device will restart.\"\x7d"))
    let w := w.delay 2000
    w.restart
  else
    let w := s.2.status.2
    let w := w.emit (Event.wifiMode wifi_mode_t.WIFI_AP)
    let w := w.delay 100
    let w := w.emit (Event.softAPConfig AP_IP AP_GATEWAY AP_SUBNET)
    let w := w.emit (Event.softAP AP_SSID AP_PASSWORD)
    let w := w.emit (Event.dnsStart 53 (lit "*") AP_IP)
    let c := w.status
    c.2.emit (Event.send 200 (lit "application/json")
      (lit "\x7b\"success\":false,\"message\":\"" ++ errorMsg c.1 ++ lit "\"\x7d"))

/-- The part of `handleWiFiConnect` from `WiFi.mode(WIFI_STA)` to the end of the
poll loop, with the loop bound as a parameter. -/
def connectAttempt (bound : Nat) (ssid password : AString) (w : World) : Nat × World :=
  let w := w.emit (Event.wifiMode wifi_mode_t.WIFI_STA)
  let w := w.emit Event.wifiDisconnect
  let w := w.delay 500
  let w := w.emit (Event.wifiBegin ssid password)
  userLoop bound 0 w

/-- The function `handleWiFiConnect()` with the loop bound as a parameter. -/
def handleWiFiConnectWith (bound : Nat) (req : Request) (w : World) : World :=
  if !req.hasArg (lit "ssid") || !req.hasArg (lit "password") then
    w.emit (Event.send 400 (lit "application/json")
      (lit "\x7b\"success\":false,\"message\":\"Missing SSID or password\"\x7d"))
  else
    let ssid := req.arg (lit "ssid")
    let password := req.arg (lit "password")
    connectOutcome ssid password (connectAttempt bound ssid password w).2

/-- The function `handleWiFiConnect()`. -/
def handleWiFiConnect (req : Request) (w : World) : World :=
  handleWiFiConnectWith 30 req w

/-! ## The other handlers and the tick -/

/-- The function `handleRoot()`. -/
def handleRoot (w : World) : World :=
  w.emit (Event.send 200 (lit "text/html") w.html)

/-- The function `handleNotFound()`. -/
def handleNotFound (w : World) : World :=
  let w := w.emit (Event.sendHeader (lit "Location") (lit "/"))
  w.emit (Event.send 302 (lit "text/plain") (lit ""))

/-- The handler registered for `/status`. -/
def handleStatus (w : World) : World :=
  let w := w.emit (Event.sendHeader (lit "Access-Control-Allow-Origin") (lit "*"))
  w.emit (Event.send 200 (lit "application/json")
    (lit "\x7b\"status\":\"ready\",\"mode\":\"config\"\x7d"))

/-- The handler registered for `/debug`. -/
def handleDebug (w : World) : World :=
  let w := w.emit Event.wifiGetMode
  let debug := lit "WiFi Mode: " ++ decStr w.reportedMode.toNat ++ lit "\\n"
  let w := w.emit Event.softAPgetStationNum
  let debug := debug ++ (lit "AP Status: " ++ decStr w.stationNum ++ lit " clients\\n")
  let w := w.emit Event.getFreeHeap
  let debug := debug ++ (lit "Free Heap: " ++ decStr w.freeHeap ++ lit "\\n")
  w.emit (Event.send 200 (lit "text/plain") debug)

/-- The call `server.handleClient()`: a pending request is given to the first
handler registered in `startConfigMode` that matches its path and method, and to
the not-found handler when there is none. -/
def serverHandleClient (pending : Option Request) (w : World) : World :=
  match pending with
  | none => w
  | some req =>
    if req.uri = lit "/" then handleRoot w
    else if req.uri = lit "/scan" then handleWiFiScan w
    else if req.uri = lit "/status" then handleStatus w
    else if req.uri = lit "/debug" then handleDebug w
    else if req.uri = lit "/connect" ∧ req.method = HTTPMethod.HTTP_POST then
      handleWiFiConnect req w
    else handleNotFound w

/-- The function `handleClient()`, given the request that is pending, if any.
A restart inside a handler ends the tick. -/
def handleClient (pending : Option Request) (w : World) : World :=
  if w.isConfigMode then
    let w := w.emit Event.dnsProcessNextRequest
    let w := serverHandleClient pending w
    if w.restarted then w
    else if sub32 w.millis w.configModeStartTime > CONFIG_MODE_TIMEOUT then w.restart
    else w
  else w

/-! ## Definitions used to state the properties -/

/-- An EEPROM in the erased state: every byte is `0xFF`. -/
def erasedEEPROM : EEPROMClass := ⟨fun _ => 255, fun _ => 255⟩

/-- The operations of the credential store. -/
inductive StoreOp where
  | save (ssid password : AString)
  | load
  | clear
  deriving DecidableEq, Repr

/-- The storage after one store operation; `load` reads only. -/
def StoreOp.run (op : StoreOp) (e : EEPROMClass) : EEPROMClass :=
  match op with
  | StoreOp.save ssid password => saveWiFiCredentials e ssid password
  | StoreOp.load => e
  | StoreOp.clear => clearWiFiCredentials e

/-- Is the operation a `save`? -/
def StoreOp.isSave : StoreOp → Bool
  | StoreOp.save _ _ => true
  | _ => false

/-- The storage after a sequence of store operations. -/
def runStoreOps (ops : List StoreOp) (e : EEPROMClass) : EEPROMClass :=
  ops.foldl (fun e op => op.run e) e

/-- The SSID that `loadWiFiCredentials` decodes from the storage. -/
def decodedSsid (e : EEPROMClass) : AString :=
  cstr ((readBuf e WIFI_SSID_ADDR MAX_SSID_LENGTH).set (MAX_SSID_LENGTH - 1) 0)

/-- The password that `loadWiFiCredentials` decodes from the storage. -/
def decodedPassword (e : EEPROMClass) : AString :=
  cstr ((readBuf e WIFI_PASS_ADDR MAX_PASS_LENGTH).set (MAX_PASS_LENGTH - 1) 0)

/-- The byte that `saveWiFiCredentials` leaves at offset `i` of a slot of width `cap`. -/
def slotByte (s : AString) (cap i : Nat) : Nat :=
  if i < min s.length (cap - 1) then s.getD i 0 % 256 else 0

/-- The world `w` after calls that took `ms` milliseconds in `waits` wait periods
and left the member variables and the storage alone. -/
def World.after (w : World) (ms waits : Nat) (calls : List Event) : World :=
  { w with clock := w.clock + ms, epoch := w.epoch + waits, trace := w.trace ++ calls }

/-- The calls of `k` rounds of the loop of `connectToWiFi`. -/
def bootCalls : Nat → List Event
  | 0 => []
  | k + 1 => [Event.wifiStatus, Event.delay 500] ++ bootCalls k

/-- The calls of `k` rounds of the loop of `handleWiFiConnect` that run to their end. -/
def userCalls : Nat → List Event
  | 0 => []
  | k + 1 => [Event.wifiStatus, Event.delay 500, Event.wifiStatus, Event.wifiStatus]
      ++ userCalls k

/-- The calls of `startConfigMode`. -/
def startConfigModeCalls : List Event :=
  [Event.wifiDisconnect, Event.delay 100, Event.wifiMode wifi_mode_t.WIFI_AP,
   Event.softAPConfig AP_IP AP_GATEWAY AP_SUBNET, Event.softAP AP_SSID AP_PASSWORD,
   Event.dnsStart 53 (lit "*") AP_IP,
   Event.serverOn (lit "/") none, Event.serverOn (lit "/scan") none,
   Event.serverOn (lit "/status") none, Event.serverOn (lit "/debug") none,
   Event.serverOn (lit "/connect") (some HTTPMethod.HTTP_POST),
   Event.serverOnNotFound, Event.serverBegin]

/-- A world right after power-up with the given storage and radio behaviour. -/
def bootWorld (e : EEPROMClass) (st : Nat → wl_status_t) : World :=
  { isConfigMode := false, configModeStartTime := 0, EEPROM := e, clock := 0, epoch := 0,
    wlStatus := st, scans := fun _ => ⟨0, fun _ => [], fun _ => 0, fun _ => 0⟩, scanCount := 0,
    reportedMode := wifi_mode_t.WIFI_OFF, stationNum := 0, freeHeap := 0, html := [],
    trace := [], restarted := false }

/-- A `POST /connect` request carrying the two form fields. -/
def connectRequest (ssid password : AString) : Request :=
  { method := HTTPMethod.HTTP_POST, uri := lit "/connect",
    args := [(lit "ssid", ssid), (lit "password", password)] }

/-- The status seen by poll `j` of a user-initiated attempt started in `w`: poll 0
is the first test of the loop condition, poll `j` follows the `j`-th wait of the
loop.  One wait precedes the connect request. -/
def pollAt (w : World) (j : Nat) : wl_status_t := w.wlStatus (w.epoch + 1 + j)

/-- The world in which `handleWiFiConnect` leaves its poll loop. -/
def afterAttempt (req : Request) (w : World) : World :=
  (connectAttempt 30 (req.arg (lit "ssid")) (req.arg (lit "password")) w).2

/-- The body of the failure response for a final status `s`. -/
def failureBody (s : wl_status_t) : AString :=
  lit "\x7b\"success\":false,\"message\":\"" ++ errorMsg s ++ lit "\"\x7d"

/-- The body of the success response. -/
def successBody : AString :=
  lit "\x7b\"success\":true,\"message\":\"Connected successfully! Device will restart.\"\x7d"

/-- The calls of the success branch of `handleWiFiConnect`. -/
def successCalls : List Event :=
  [Event.wifiStatus, Event.wifiLocalIP, Event.eepromCommit,
   Event.send 200 (lit "application/json") successBody, Event.delay 2000, Event.restart]

/-- The calls of the failure branch of `handleWiFiConnect` for a final status `s`. -/
def failureCalls (s : wl_status_t) : List Event :=
  [Event.wifiStatus, Event.wifiStatus, Event.wifiMode wifi_mode_t.WIFI_AP, Event.delay 100,
   Event.softAPConfig AP_IP AP_GATEWAY AP_SUBNET, Event.softAP AP_SSID AP_PASSWORD,
   Event.dnsStart 53 (lit "*") AP_IP, Event.wifiStatus,
   Event.send 200 (lit "application/json") (failureBody s)]

/-- One turn of the sketch's main loop: the time (`elapsed` milliseconds, `waits`
wait periods) spent outside the manager, then `handleClient()` with the request
that is pending, if any.  Nothing runs after a restart. -/
structure Tick where
  elapsed : Nat
  waits : Nat
  pending : Option Request

/-- Time spent outside the manager. -/
def World.idle (w : World) (ms waits : Nat) : World :=
  { w with clock := w.clock + ms, epoch := w.epoch + waits }

/-- One tick. -/
def runTick (t : Tick) (w : World) : World :=
  if w.restarted then w
  else handleClient t.pending (w.idle t.elapsed t.waits)

/-- A sequence of ticks. -/
def runTicks (ts : List Tick) (w : World) : World :=
  ts.foldl (fun w t => runTick t w) w

/-- A device in config mode whose radio reports connected throughout. -/
def connectedWorld : World :=
  startConfigMode (bootWorld erasedEEPROM (fun _ => wl_status_t.WL_CONNECTED))

/-- The two member variables of `w1` are those of `w`. -/
def SameSession (w w1 : World) : Prop :=
  w1.isConfigMode = w.isConfigMode ∧ w1.configModeStartTime = w.configModeStartTime

/-- A device that entered config mode at `millis() = start` and whose clock now
reads `now` milliseconds since power-up. -/
def portalWorld (start now : Nat) : World :=
  { bootWorld erasedEEPROM (fun _ => wl_status_t.WL_DISCONNECTED) with
    isConfigMode := true, configModeStartTime := start, clock := now }

/-- The world in which `handleClient` makes its timeout check. -/
def served (pending : Option Request) (w : World) : World :=
  serverHandleClient pending (w.emit Event.dnsProcessNextRequest)

/-- A device in config mode whose radio reports an authentication failure during
its fourth wait period only, and no station interface afterwards. -/
def flipWorld : World :=
  startConfigMode (bootWorld erasedEEPROM
    (fun n => if n < 3 then wl_status_t.WL_DISCONNECTED
      else if n = 3 then wl_status_t.WL_CONNECT_FAILED else wl_status_t.WL_NO_SHIELD))

/-- A network as the radio reports it: name, signal strength, encryption type. -/
structure NetworkObservation where
  ssid : AString
  rssi : Int
  encryption : wifi_auth_mode_t
  deriving DecidableEq, Repr

/-- The scan report `r` is that of a radio that found the networks `nets`, in that
order: the count is their number and the accessors return their fields. -/
def Reports (r : ScanReport) (nets : List NetworkObservation) : Prop :=
  r.n = nets.length
  ∧ ∀ i o, nets[i]? = some o →
      r.SSID i = o.ssid ∧ r.RSSI i = o.rssi ∧ r.encryptionType i = o.encryption

/-- A scan report for the networks `nets`; beyond the count the accessors return
empty values. -/
def reportOf (nets : List NetworkObservation) : ScanReport :=
  { n := nets.length,
    SSID := fun i => (nets[i]?.map (fun o => o.ssid)).getD [],
    RSSI := fun i => (nets[i]?.map (fun o => o.rssi)).getD 0,
    encryptionType := fun i => (nets[i]?.map (fun o => o.encryption)).getD 0 }

/-- A scan report for a scan that failed with the given negative code. -/
def failedReport (code : Int) : ScanReport :=
  { n := code, SSID := fun _ => [], RSSI := fun _ => 0, encryptionType := fun _ => 0 }

/-- Following the interface description: the security word of a network, `Open`
for the open encryption type and `Secured` for every other. -/
def specSecurity (encryption : wifi_auth_mode_t) : AString :=
  if encryption = WIFI_AUTH_OPEN then lit "Open" else lit "Secured"

/-- Following the interface description: the entry
`{"ssid":"<ssid>","rssi":<rssi>,"security":"<sec>"}` of one network. -/
def specEntry (o : NetworkObservation) : AString :=
  lit "\x7b\"ssid\":\"" ++ o.ssid ++ lit "\",\"rssi\":" ++ decStr o.rssi
    ++ lit ",\"security\":\"" ++ specSecurity o.encryption ++ lit "\"\x7d"

/-- Following the interface description: the body `{"networks":[e_0,...,e_(n-1)]}`
with the entries separated by commas, in the order of the list. -/
def specScanJson (nets : List NetworkObservation) : AString :=
  lit "\x7b\"networks\":[" ++ List.intercalate (lit ",") (nets.map specEntry) ++ lit "]\x7d"

/-- The calls of `handleWiFiScan` when the scan completes and `body` is sent. -/
def scanCalls (body : AString) : List Event :=
  [Event.sendHeader (lit "Access-Control-Allow-Origin") (lit "*"),
   Event.sendHeader (lit "Access-Control-Allow-Methods") (lit "GET, POST, OPTIONS"),
   Event.sendHeader (lit "Access-Control-Allow-Headers") (lit "Content-Type"),
   Event.wifiGetMode, Event.wifiMode wifi_mode_t.WIFI_AP_STA, Event.delay 100,
   Event.scanNetworks false true, Event.scanDelete, Event.wifiMode wifi_mode_t.WIFI_AP,
   Event.delay 100, Event.softAPConfig AP_IP AP_GATEWAY AP_SUBNET,
   Event.softAP AP_SSID AP_PASSWORD, Event.send 200 (lit "application/json") body]

/-- The body sent when the handler flags a failed scan. -/
def scanFailedBody : AString :=
  lit "\x7b\"networks\":[],\"error\":\"Scan failed\"\x7d"

/-- A device in config mode whose next scan finds the given networks. -/
def scanWorld (nets : List NetworkObservation) : World :=
  { connectedWorld with scans := fun _ => reportOf nets }

/-- A device in config mode whose next scan fails with `WIFI_SCAN_FAILED` (-2). -/
def scanFailedWorld : World :=
  { connectedWorld with scans := fun _ => failedReport (-2) }

/-- Two networks: an open one and a secured one. -/
def twoNetworks : List NetworkObservation :=
  [{ ssid := lit "Cafe", rssi := -40, encryption := 0 },
   { ssid := lit "Home", rssi := -71, encryption := 3 }]

theorem forLoop_succ {σ : Type} (n : Nat) (body : Nat → σ → σ) (s : σ) :
    forLoop (n + 1) body s = body n (forLoop n body s) := by
  simp [forLoop, List.range_succ, List.foldl_append]

theorem write_data (e : EEPROMClass) (address val a : Nat) :
    (e.write address val).data a = if a = address then val % 256 else e.data a := rfl

theorem write_flash (e : EEPROMClass) (address val : Nat) :
    (e.write address val).flash = e.flash := rfl

theorem forLoop_write_data (f : Nat → Nat) (base n : Nat) (e : EEPROMClass) (a : Nat) :
    (forLoop n (fun i e => e.write (base + i) (f i)) e).data a
      = if base ≤ a ∧ a < base + n then f (a - base) % 256 else e.data a := by
  induction n with
  | zero =>
    have h : ¬ (base ≤ a ∧ a < base) := by omega
    simp [forLoop, h]
  | succ n ih =>
    rw [forLoop_succ, write_data, ih]
    by_cases h : a = base + n
    · subst h
      simp
    · simp only [h, if_false]
      by_cases h2 : base ≤ a ∧ a < base + n
      · have h3 : base ≤ a ∧ a < base + (n + 1) := ⟨h2.1, by omega⟩
        simp [h2, h3]
      · have h3 : ¬ (base ≤ a ∧ a < base + (n + 1)) := by omega
        simp [h2, h3]

theorem forLoop_write_flash (f : Nat → Nat) (base n : Nat) (e : EEPROMClass) :
    (forLoop n (fun i e => e.write (base + i) (f i)) e).flash = e.flash := by
  induction n with
  | zero => simp [forLoop]
  | succ n ih => rw [forLoop_succ, write_flash, ih]

theorem save_data (e : EEPROMClass) (ssid password : AString) (a : Nat) :
    (saveWiFiCredentials e ssid password).data a
      = if a = 300 then 1
        else if 200 ≤ a ∧ a < 264 then slotByte password 64 (a - 200)
        else if 100 ≤ a ∧ a < 132 then slotByte ssid 32 (a - 100)
        else e.data a := by
  have hc : ∀ e : EEPROMClass, e.commit.data = e.data := fun _ => rfl
  simp only [saveWiFiCredentials, hc, write_data, forLoop_write_data,
    WIFI_SSID_ADDR, WIFI_PASS_ADDR, WIFI_CONFIGURED_ADDR, MAX_SSID_LENGTH, MAX_PASS_LENGTH,
    slotByte]
  by_cases h300 : a = 300
  · simp [h300]
  · simp only [h300, if_false]
    by_cases hp : 200 ≤ a ∧ a < 264
    · simp only [hp, and_self, if_true]
      by_cases hp2 : a < 200 + min password.length (64 - 1)
      · have : a - 200 < min password.length (64 - 1) := by omega
        simp [hp2, hp.1, this]
      · have : ¬ (a - 200 < min password.length (64 - 1)) := by omega
        have h1 : ¬ (100 ≤ a ∧ a < 100 + min ssid.length (32 - 1)) := by omega
        simp [hp2, this, h1, hp.1, hp.2]
    · have hp2 : ¬ (200 ≤ a ∧ a < 200 + min password.length (64 - 1)) := by omega
      have hp3 : ¬ (200 ≤ a ∧ a < 200 + 64) := by omega
      simp only [hp, hp2, hp3, if_false]
      by_cases hs : 100 ≤ a ∧ a < 132
      · simp only [hs, and_self, if_true]
        by_cases hs2 : a < 100 + min ssid.length (32 - 1)
        · have : a - 100 < min ssid.length (32 - 1) := by omega
          simp [hs2, hs.1, this]
        · have : ¬ (a - 100 < min ssid.length (32 - 1)) := by omega
          simp [hs2, this, hs.1, hs.2]
      · have hs2 : ¬ (100 ≤ a ∧ a < 100 + min ssid.length (32 - 1)) := by omega
        have hs3 : ¬ (100 ≤ a ∧ a < 100 + 32) := by omega
        simp [hs, hs2, hs3]

theorem save_flash (e : EEPROMClass) (ssid password : AString) :
    (saveWiFiCredentials e ssid password).flash = (saveWiFiCredentials e ssid password).data := by
  simp [saveWiFiCredentials, EEPROMClass.commit]

theorem cstr_of_prefix (s : AString) (hs : IsCStr s) (buf : List Nat)
    (hpre : ∀ i, i < s.length → buf.getD i 0 = s.getD i 0)
    (hz : buf.getD s.length 0 = 0) : cstr buf = s := by
  induction s generalizing buf with
  | nil =>
    cases buf with
    | nil => rfl
    | cons b bs =>
      simp at hz
      simp [cstr, List.takeWhile, hz]
  | cons c cs ih =>
    have hc : 0 < c ∧ c < 256 := hs c (by simp)
    cases buf with
    | nil =>
      have := hpre 0 (by simp)
      simp at this
      omega
    | cons b bs =>
      have hb : b = c := by
        have := hpre 0 (by simp)
        simpa using this
      subst hb
      have hne : (b != 0) = true := by
        simp
        omega
      simp only [cstr, List.takeWhile, hne]
      congr 1
      apply ih (fun x hx => hs x (by simp [hx]))
      · intro i hi
        have := hpre (i + 1) (by simpa using hi)
        simpa using this
      · simpa using hz

theorem readBuf_set_getD (e : EEPROMClass) (addr n k i : Nat) (hi : i < n) :
    ((readBuf e addr n).set k 0).getD i 0 = if i = k then 0 else e.data (addr + i) := by
  simp only [readBuf, List.getD_eq_getElem?_getD, List.getElem?_set, List.length_map,
    List.length_range, EEPROMClass.read]
  by_cases h : k = i
  · subst h
    simp [hi]
  · have h2 : ¬ i = k := fun h3 => h h3.symm
    simp [h, h2, List.getElem?_range hi]

theorem take_isCStr (s : AString) (n : Nat) (hs : IsCStr s) : IsCStr (s.take n) :=
  fun b hb => hs b (List.mem_of_mem_take hb)

theorem getD_mod_of_isCStr (s : AString) (hs : IsCStr s) (i : Nat) :
    s.getD i 0 % 256 = s.getD i 0 := by
  by_cases h : i < s.length
  · have hm : s.getD i 0 ∈ s := by
      rw [List.getD_eq_getElem _ _ h]
      exact List.getElem_mem h
    exact Nat.mod_eq_of_lt (hs _ hm).2
  · rw [List.getD_eq_default _ _ (by omega)]

/-- Decoding a slot right after `saveWiFiCredentials` gives the string cut to the
slot capacity less one. -/
theorem decode_slot (e : EEPROMClass) (s : AString) (hs : IsCStr s) (addr cap : Nat)
    (hcap : 0 < cap)
    (hd : ∀ i, i < cap → e.data (addr + i) = slotByte s cap i) :
    cstr ((readBuf e addr cap).set (cap - 1) 0) = s.take (cap - 1) := by
  apply cstr_of_prefix _ (take_isCStr s _ hs)
  · intro i hi
    have hi2 : i < min (cap - 1) s.length := by simpa using hi
    rw [readBuf_set_getD e addr cap (cap - 1) i (by omega)]
    have h1 : ¬ i = cap - 1 := by omega
    have h3 : i < min s.length (cap - 1) := by omega
    simp only [h1, if_false]
    rw [hd i (by omega)]
    simp only [slotByte, h3, if_true]
    rw [getD_mod_of_isCStr s hs]
    simp only [List.getD_eq_getElem?_getD, List.getElem?_take]
    have h4 : i < cap - 1 := by omega
    simp [h4]
  · rw [readBuf_set_getD e addr cap (cap - 1) _ (by simp; omega)]
    by_cases h : (s.take (cap - 1)).length = cap - 1
    · simp [h]
    · simp only [h, if_false]
      have h2 : (s.take (cap - 1)).length < cap - 1 := by
        have := List.length_take_le (cap - 1) s
        omega
      rw [hd _ (by omega)]
      have h3 : ¬ ((s.take (cap - 1)).length < min s.length (cap - 1)) := by
        simp only [List.length_take]
        omega
      simp only [slotByte, h3, if_false]

/-- What `loadWiFiCredentials` returns right after `saveWiFiCredentials`. -/
theorem load_save (e : EEPROMClass) (ssid password s0 p0 : AString)
    (hs : IsCStr ssid) (hp : IsCStr password) :
    loadWiFiCredentials (saveWiFiCredentials e ssid password) s0 p0
      = (decide ((ssid.take 31).length > 0), ssid.take 31, password.take 63) := by
  have hflag : (saveWiFiCredentials e ssid password).read WIFI_CONFIGURED_ADDR = 1 := by
    simp [EEPROMClass.read, save_data, WIFI_CONFIGURED_ADDR]
  have h1 := decode_slot (saveWiFiCredentials e ssid password) ssid hs WIFI_SSID_ADDR
    MAX_SSID_LENGTH (by decide) (by
      intro i hi
      rw [save_data]
      simp only [WIFI_SSID_ADDR, MAX_SSID_LENGTH] at *
      have a1 : ¬ (100 + i = 300) := by omega
      have a2 : ¬ (200 ≤ 100 + i ∧ 100 + i < 264) := by omega
      have a3 : 100 ≤ 100 + i ∧ 100 + i < 132 := by omega
      simp [a1, a2, a3])
  have h2 := decode_slot (saveWiFiCredentials e ssid password) password hp WIFI_PASS_ADDR
    MAX_PASS_LENGTH (by decide) (by
      intro i hi
      rw [save_data]
      simp only [WIFI_PASS_ADDR, MAX_PASS_LENGTH] at *
      have a1 : ¬ (200 + i = 300) := by omega
      have a2 : 200 ≤ 200 + i ∧ 200 + i < 264 := by omega
      simp [a1, a2])
  simp only [loadWiFiCredentials, hflag, h1, h2, ne_eq, not_true_eq_false, if_false]
  rfl

theorem load_save_fits (e : EEPROMClass) (ssid password s0 p0 : AString)
    (hs : IsCStr ssid) (hp : IsCStr password) (hne : ssid ≠ [])
    (h31 : ssid.length ≤ 31) (h63 : password.length ≤ 63) :
    loadWiFiCredentials (saveWiFiCredentials e ssid password) s0 p0
      = (true, ssid, password) := by
  rw [load_save e ssid password s0 p0 hs hp, List.take_of_length_le h31,
    List.take_of_length_le h63]
  have : ssid.length > 0 := List.length_pos.mpr hne
  simp [this]

theorem load_unconfigured (e : EEPROMClass) (s0 p0 : AString)
    (h : e.read WIFI_CONFIGURED_ADDR ≠ 1) :
    loadWiFiCredentials e s0 p0 = (false, s0, p0) := by
  simp [loadWiFiCredentials, h]

theorem load_configured (e : EEPROMClass) (s0 p0 : AString)
    (h : e.read WIFI_CONFIGURED_ADDR = 1) :
    loadWiFiCredentials e s0 p0
      = (decide ((decodedSsid e).length > 0), decodedSsid e, decodedPassword e) := by
  simp [loadWiFiCredentials, h, decodedSsid, decodedPassword]

theorem clear_flag (e : EEPROMClass) :
    (clearWiFiCredentials e).read WIFI_CONFIGURED_ADDR = 0 := by
  simp [clearWiFiCredentials, EEPROMClass.commit, EEPROMClass.read, EEPROMClass.write]

theorem runStoreOps_flag (ops : List StoreOp) (e : EEPROMClass)
    (hops : ∀ op ∈ ops, op.isSave = false) (h : e.read WIFI_CONFIGURED_ADDR = 0) :
    (runStoreOps ops e).read WIFI_CONFIGURED_ADDR = 0 := by
  induction ops generalizing e with
  | nil => simpa [runStoreOps] using h
  | cons op ops ih =>
    have hop := hops op (by simp)
    have hrest : ∀ o ∈ ops, o.isSave = false := fun o ho => hops o (by simp [ho])
    have hstep : (op.run e).read WIFI_CONFIGURED_ADDR = 0 := by
      cases op with
      | save a b => simp [StoreOp.isSave] at hop
      | load => simpa [StoreOp.run] using h
      | clear => simpa [StoreOp.run] using clear_flag e
    simpa [runStoreOps] using ih (op.run e) hrest hstep

/-! ## The credential store: round trip, absence, truncation -/

/-- C1, as stated, fails: the empty SSID has at most 31 bytes, yet after saving it
(with the password `secret123`, on an erased EEPROM) `loadWiFiCredentials` reports
no credential. -/
theorem C1_empty_ssid_not_reported :
    (loadWiFiCredentials (saveWiFiCredentials erasedEEPROM [] (lit "secret123")) [] []).1
        = false
    ∧ ¬ (∀ (e : EEPROMClass) (ssid password : AString), IsCStr ssid → IsCStr password →
        ssid.length ≤ 31 → password.length ≤ 63 →
        loadWiFiCredentials (saveWiFiCredentials e ssid password) [] []
          = (true, ssid, password)) := by
  have hc : (loadWiFiCredentials (saveWiFiCredentials erasedEEPROM [] (lit "secret123"))
      [] []).1 = false := by decide
  refine ⟨hc, fun h => ?_⟩
  have h1 := h erasedEEPROM [] (lit "secret123") (by decide) (by decide) (by decide) (by decide)
  rw [h1] at hc
  exact absurd hc (by decide)

/-- C1, amended: for every prior storage content, every non-empty SSID of at most
31 bytes and every password of at most 63 bytes, `saveWiFiCredentials` followed by
`loadWiFiCredentials` reports a credential and returns exactly that SSID and that
password. -/
theorem C1_save_load_round_trip (e : EEPROMClass) (ssid password s0 p0 : AString)
    (hs : IsCStr ssid) (hp : IsCStr password) (hne : ssid ≠ [])
    (h31 : ssid.length ≤ 31) (h63 : password.length ≤ 63) :
    loadWiFiCredentials (saveWiFiCredentials e ssid password) s0 p0
      = (true, ssid, password) :=
  load_save_fits e ssid password s0 p0 hs hp hne h31 h63

theorem C1_save_load_round_trip_witness :
    loadWiFiCredentials (saveWiFiCredentials erasedEEPROM (lit "Home") (lit "secret123"))
      (lit "old") (lit "older") = (true, lit "Home", lit "secret123") :=
  C1_save_load_round_trip erasedEEPROM (lit "Home") (lit "secret123") (lit "old") (lit "older")
    (by decide) (by decide) (by decide) (by decide) (by decide)

/-- C2: `loadWiFiCredentials` reports no credential when the configured flag is
not set, whatever the slots hold, and when the flag is set but the decoded SSID is
empty; otherwise it returns the decoded SSID and password.  After
`clearWiFiCredentials`, and after any further store operations none of which is a
save, it reports no credential. -/
theorem C2_load_none_cases (e : EEPROMClass) (s0 p0 : AString) :
    (e.read WIFI_CONFIGURED_ADDR ≠ 1 → loadWiFiCredentials e s0 p0 = (false, s0, p0))
    ∧ (e.read WIFI_CONFIGURED_ADDR = 1 → decodedSsid e = [] →
        (loadWiFiCredentials e s0 p0).1 = false)
    ∧ (e.read WIFI_CONFIGURED_ADDR = 1 → decodedSsid e ≠ [] →
        loadWiFiCredentials e s0 p0 = (true, decodedSsid e, decodedPassword e))
    ∧ (loadWiFiCredentials (clearWiFiCredentials e) s0 p0).1 = false
    ∧ (∀ ops : List StoreOp, (∀ op ∈ ops, op.isSave = false) →
        (loadWiFiCredentials (runStoreOps ops (clearWiFiCredentials e)) s0 p0).1 = false) := by
  refine ⟨load_unconfigured e s0 p0, ?_, ?_, ?_, ?_⟩
  · intro h hd
    rw [load_configured e s0 p0 h, hd]
    rfl
  · intro h hd
    rw [load_configured e s0 p0 h]
    have : (decodedSsid e).length > 0 := List.length_pos.mpr hd
    simp [this]
  · rw [load_unconfigured _ s0 p0 (by rw [clear_flag]; decide)]
  · intro ops hops
    rw [load_unconfigured _ s0 p0 (by
      rw [runStoreOps_flag ops _ hops (clear_flag e)]
      decide)]

theorem C2_load_none_cases_witness :
    (loadWiFiCredentials
      (runStoreOps [StoreOp.load, StoreOp.clear, StoreOp.load]
        (clearWiFiCredentials (saveWiFiCredentials erasedEEPROM (lit "Home") (lit "secret123"))))
      [] []).1 = false :=
  (C2_load_none_cases (saveWiFiCredentials erasedEEPROM (lit "Home") (lit "secret123")) [] []
    ).2.2.2.2 [StoreOp.load, StoreOp.clear, StoreOp.load] (by decide)

/-- C3: for every prior storage content, saving an SSID of 32 bytes or more stores
its first 31 bytes followed by a zero inside the 32-byte slot, and the following
load reports a credential whose SSID is exactly those 31 bytes; saving a password
of 64 bytes or more stores its first 63 bytes followed by a zero inside the
64-byte slot, and the following load returns exactly those 63 bytes. -/
theorem C3_save_truncates (e : EEPROMClass) (ssid password s0 p0 : AString)
    (hs : IsCStr ssid) (hp : IsCStr password) :
    (32 ≤ ssid.length →
        (∀ i, i < 31 → (saveWiFiCredentials e ssid password).read (WIFI_SSID_ADDR + i)
            = ssid.getD i 0)
        ∧ (saveWiFiCredentials e ssid password).read (WIFI_SSID_ADDR + 31) = 0
        ∧ (loadWiFiCredentials (saveWiFiCredentials e ssid password) s0 p0).1 = true
        ∧ (loadWiFiCredentials (saveWiFiCredentials e ssid password) s0 p0).2.1
            = ssid.take 31)
    ∧ (64 ≤ password.length →
        (∀ i, i < 63 → (saveWiFiCredentials e ssid password).read (WIFI_PASS_ADDR + i)
            = password.getD i 0)
        ∧ (saveWiFiCredentials e ssid password).read (WIFI_PASS_ADDR + 63) = 0
        ∧ (loadWiFiCredentials (saveWiFiCredentials e ssid password) s0 p0).2.2
            = password.take 63) := by
  rw [load_save e ssid password s0 p0 hs hp]
  constructor
  · intro h32
    refine ⟨?_, ?_, ?_, rfl⟩
    · intro i hi
      have a1 : ¬ (100 + i = 300) := by omega
      have a2 : ¬ (200 ≤ 100 + i ∧ 100 + i < 264) := by omega
      have a3 : 100 ≤ 100 + i ∧ 100 + i < 132 := by omega
      have a4 : i < min ssid.length (32 - 1) := by omega
      simp only [EEPROMClass.read, save_data, WIFI_SSID_ADDR, a1, a2, a3, and_self, if_true,
        if_false, slotByte, Nat.add_sub_cancel_left, a4]
      exact getD_mod_of_isCStr ssid hs i
    · simp [EEPROMClass.read, save_data, WIFI_SSID_ADDR, slotByte]
    · have : (ssid.take 31).length > 0 := by
        simp only [List.length_take]
        omega
      exact decide_eq_true this
  · intro h64
    refine ⟨?_, ?_, rfl⟩
    · intro i hi
      have a1 : ¬ (200 + i = 300) := by omega
      have a2 : 200 ≤ 200 + i ∧ 200 + i < 264 := by omega
      have a4 : i < min password.length (64 - 1) := by omega
      simp only [EEPROMClass.read, save_data, WIFI_PASS_ADDR, a1, a2, and_self, if_true,
        if_false, slotByte, Nat.add_sub_cancel_left, a4]
      exact getD_mod_of_isCStr password hp i
    · simp [EEPROMClass.read, save_data, WIFI_PASS_ADDR, slotByte]

theorem C3_save_truncates_witness :
    32 ≤ (List.replicate 40 65).length ∧ 64 ≤ (List.replicate 70 66).length
    ∧ (loadWiFiCredentials (saveWiFiCredentials
        (saveWiFiCredentials erasedEEPROM (List.replicate 50 67) (List.replicate 80 68))
        (List.replicate 40 65) (List.replicate 70 66)) [] []).2.1 = List.replicate 31 65
    ∧ (loadWiFiCredentials (saveWiFiCredentials
        (saveWiFiCredentials erasedEEPROM (List.replicate 50 67) (List.replicate 80 68))
        (List.replicate 40 65) (List.replicate 70 66)) [] []).2.2 = List.replicate 63 66 := by
  have h := C3_save_truncates
    (saveWiFiCredentials erasedEEPROM (List.replicate 50 67) (List.replicate 80 68))
    (List.replicate 40 65) (List.replicate 70 66) [] [] (by decide) (by decide)
  exact ⟨by decide, by decide, (h.1 (by decide)).2.2.2, (h.2 (by decide)).2.2⟩

/-! ## Lemmas on worlds -/

theorem after_after (w : World) (a b a1 b1 : Nat) (c c1 : List Event) :
    (w.after a b c).after a1 b1 c1 = w.after (a + a1) (b + b1) (c ++ c1) := by
  simp [World.after, Nat.add_assoc, List.append_assoc]

theorem emit_eq_after (w : World) (ev : Event) : w.emit ev = w.after 0 0 [ev] := by
  simp [World.emit, World.after]

theorem delay_eq_after (w : World) (ms : Nat) : w.delay ms = w.after ms 1 [Event.delay ms] := by
  simp [World.delay, World.after]

theorem status_fst (w : World) : w.status.1 = w.wlStatus w.epoch := rfl

theorem status_snd (w : World) : w.status.2 = w.after 0 0 [Event.wifiStatus] := by
  simp [World.status, emit_eq_after]

theorem after_congr (w : World) (a b a1 b1 : Nat) (c c1 : List Event)
    (ha : a = a1) (hb : b = b1) (hc : c = c1) : w.after a b c = w.after a1 b1 c1 := by
  subst ha hb hc
  rfl

theorem bootLoop_run (k : Nat) : ∀ (remaining attempts : Nat) (w : World),
    k ≤ remaining →
    (∀ j, j < k → w.wlStatus (w.epoch + j) ≠ wl_status_t.WL_CONNECTED) →
    (k = remaining ∨ w.wlStatus (w.epoch + k) = wl_status_t.WL_CONNECTED) →
    bootLoop remaining attempts w
      = (attempts + k, w.after (500 * k) k (bootCalls k ++ [Event.wifiStatus])) := by
  induction k with
  | zero =>
    intro remaining attempts w _ _ hend
    cases remaining with
    | zero => simp [bootLoop, status_snd, bootCalls]
    | succ r =>
      have hc : w.wlStatus w.epoch = wl_status_t.WL_CONNECTED := by
        rcases hend with h | h
        · omega
        · simpa using h
      simp [bootLoop, status_fst, status_snd, hc, bootCalls]
  | succ k ih =>
    intro remaining attempts w hk hbefore hend
    cases remaining with
    | zero => omega
    | succ r =>
      have h0 : w.wlStatus w.epoch ≠ wl_status_t.WL_CONNECTED := by
        simpa using hbefore 0 (by omega)
      have hstep := ih r (attempts + 1) ((w.after 0 0 [Event.wifiStatus]).after 500 1
        [Event.delay 500]) (by omega)
        (by
          intro j hj
          have := hbefore (j + 1) (by omega)
          simpa [World.after, Nat.add_assoc, Nat.add_comm 1 j] using this)
        (by
          rcases hend with h | h
          · left
            omega
          · right
            simpa [World.after, Nat.add_assoc, Nat.add_comm 1 k] using h)
      have hunf : bootLoop (r + 1) attempts w = bootLoop r (attempts + 1)
          ((w.after 0 0 [Event.wifiStatus]).after 500 1 [Event.delay 500]) := by
        simp only [bootLoop, status_fst, status_snd, delay_eq_after, h0, ne_eq,
          not_false_eq_true, if_true]
      rw [hunf, hstep, after_after, after_after]
      refine Prod.ext (by simp; omega) ?_
      apply after_congr
      · omega
      · omega
      · simp [bootCalls]

theorem startConfigMode_eq (w : World) :
    startConfigMode w
      = { w with isConfigMode := true, configModeStartTime := w.millis, clock := w.clock + 100,
                 epoch := w.epoch + 1, trace := w.trace ++ startConfigModeCalls } := by
  simp [startConfigMode, World.emit, World.delay, World.millis, startConfigModeCalls]

/-- C4: for every storage state in which `loadWiFiCredentials` reports no
credential, `begin()` enters config mode, and the calls it makes are exactly those
of `startConfigMode`: no connect request and no status poll is among them. -/
theorem C4_begin_without_credential (w : World)
    (h : (loadWiFiCredentials w.EEPROM [] []).1 = false) :
    isInConfigMode (begin w) = true
    ∧ begin w = startConfigMode w
    ∧ (begin w).trace = w.trace ++ startConfigModeCalls
    ∧ Event.wifiStatus ∉ startConfigModeCalls
    ∧ (∀ ssid password, Event.wifiBegin ssid password ∉ startConfigModeCalls) := by
  have hb : begin w = startConfigMode w := by
    simp [begin, connectToWiFi, connectToWiFiWith, h]
  refine ⟨?_, hb, ?_, by decide, ?_⟩
  · rw [hb, startConfigMode_eq]
    rfl
  · rw [hb, startConfigMode_eq]
  · intro ssid password
    simp [startConfigModeCalls]

theorem C4_begin_without_credential_witness :
    isInConfigMode (begin (bootWorld erasedEEPROM (fun _ => wl_status_t.WL_CONNECTED))) = true
    ∧ (begin (bootWorld erasedEEPROM (fun _ => wl_status_t.WL_CONNECTED))).trace
        = startConfigModeCalls :=
  ⟨(C4_begin_without_credential
      (bootWorld erasedEEPROM (fun _ => wl_status_t.WL_CONNECTED)) (by decide)).1,
   (C4_begin_without_credential
      (bootWorld erasedEEPROM (fun _ => wl_status_t.WL_CONNECTED)) (by decide)).2.2.1⟩

theorem userLoop_frame (remaining : Nat) : ∀ (attempts : Nat) (w : World),
    ∃ ms waits calls, (userLoop remaining attempts w).2 = w.after ms waits calls
      ∧ ∀ ev ∈ calls, ev = Event.wifiStatus ∨ ev = Event.delay 500 := by
  induction remaining with
  | zero =>
    intro attempts w
    exact ⟨0, 0, [Event.wifiStatus], by simp [userLoop, status_snd], by simp⟩
  | succ r ih =>
    intro attempts w
    by_cases h0 : w.wlStatus w.epoch = wl_status_t.WL_CONNECTED
    · exact ⟨0, 0, [Event.wifiStatus], by simp [userLoop, status_fst, status_snd, h0], by simp⟩
    · by_cases h1 : w.wlStatus (w.epoch + 1) = wl_status_t.WL_CONNECT_FAILED
      · refine ⟨500, 1, [Event.wifiStatus, Event.delay 500, Event.wifiStatus], ?_, by simp⟩
        simp [userLoop, status_fst, status_snd, delay_eq_after, after_after, h0, World.after, h1]
      · by_cases h2 : w.wlStatus (w.epoch + 1) = wl_status_t.WL_NO_SSID_AVAIL
        · refine ⟨500, 1, [Event.wifiStatus, Event.delay 500, Event.wifiStatus,
            Event.wifiStatus], ?_, by simp⟩
          simp [userLoop, status_fst, status_snd, delay_eq_after, after_after, h0, World.after,
            h1, h2]
        · obtain ⟨ms, waits, calls, heq, hcalls⟩ := ih (attempts + 1)
            (w.after 500 1 [Event.wifiStatus, Event.delay 500, Event.wifiStatus,
              Event.wifiStatus])
          refine ⟨500 + ms, 1 + waits, [Event.wifiStatus, Event.delay 500, Event.wifiStatus,
            Event.wifiStatus] ++ calls, ?_, ?_⟩
          · rw [← after_after, ← heq]
            simp [userLoop, status_fst, status_snd, delay_eq_after, after_after, h0,
              World.after, h1, h2]
          · intro ev hev
            simp only [List.mem_append, List.mem_cons, List.not_mem_nil, or_false] at hev
            rcases hev with (h | h | h | h) | h
            · exact Or.inl h
            · exact Or.inr h
            · exact Or.inl h
            · exact Or.inl h
            · exact hcalls ev h

theorem connectAttempt_frame (bound : Nat) (ssid password : AString) (w : World) :
    ∃ ms waits calls, (connectAttempt bound ssid password w).2 = w.after ms waits calls
      ∧ ∀ ev ∈ calls, ev ≠ Event.restart ∧ ev ≠ Event.eepromCommit := by
  obtain ⟨ms, waits, calls, heq, hcalls⟩ := userLoop_frame bound 0
    (w.after 500 1 [Event.wifiMode wifi_mode_t.WIFI_STA, Event.wifiDisconnect, Event.delay 500,
      Event.wifiBegin ssid password])
  refine ⟨500 + ms, 1 + waits, [Event.wifiMode wifi_mode_t.WIFI_STA, Event.wifiDisconnect,
    Event.delay 500, Event.wifiBegin ssid password] ++ calls, ?_, ?_⟩
  · rw [← after_after, ← heq]
    simp [connectAttempt, emit_eq_after, delay_eq_after, after_after]
  · intro ev hev
    simp only [List.mem_append, List.mem_cons, List.not_mem_nil, or_false] at hev
    rcases hev with (h | h | h | h) | h
    · subst h
      simp
    · subst h
      simp
    · subst h
      simp
    · subst h
      simp
    · rcases hcalls ev h with h1 | h1
      · subst h1
        simp
      · subst h1
        simp

theorem connectOutcome_success (ssid password : AString) (w : World)
    (h : w.status.1 = wl_status_t.WL_CONNECTED) :
    connectOutcome ssid password w
      = { w with EEPROM := saveWiFiCredentials w.EEPROM ssid password,
                 clock := w.clock + 2000, epoch := w.epoch + 1,
                 trace := w.trace ++ successCalls, restarted := true } := by
  rw [status_fst] at h
  simp [connectOutcome, status_fst, status_snd, h, World.after, World.emit, World.save,
    World.delay, World.restart, successCalls, successBody]

theorem connectOutcome_failure (ssid password : AString) (w : World)
    (h : w.status.1 ≠ wl_status_t.WL_CONNECTED) :
    connectOutcome ssid password w
      = w.after 100 1 (failureCalls (w.wlStatus (w.epoch + 1))) := by
  rw [status_fst] at h
  simp [connectOutcome, status_fst, status_snd, h, World.after, World.emit,
    World.delay, failureCalls, failureBody]

theorem handleWiFiConnect_eq (req : Request) (w : World)
    (hs : req.hasArg (lit "ssid") = true) (hp : req.hasArg (lit "password") = true) :
    handleWiFiConnect req w
      = connectOutcome (req.arg (lit "ssid")) (req.arg (lit "password")) (afterAttempt req w) := by
  simp [handleWiFiConnect, handleWiFiConnectWith, hs, hp, afterAttempt]

theorem dispatch_connect (req : Request) (w : World)
    (huri : req.uri = lit "/connect") (hmethod : req.method = HTTPMethod.HTTP_POST) :
    serverHandleClient (some req) w = handleWiFiConnect req w := by
  have h1 : lit "/connect" ≠ lit "/" := by decide
  have h2 : lit "/connect" ≠ lit "/scan" := by decide
  have h3 : lit "/connect" ≠ lit "/status" := by decide
  have h4 : lit "/connect" ≠ lit "/debug" := by decide
  simp only [serverHandleClient, huri, hmethod, h1, h2, h3, h4, if_false, and_self, if_true]

/-! ## The connect request -/

/-- C6, as stated, fails: in config mode with a radio that connects, a `POST
/connect` with an SSID of 32 bytes `A` and the password `pw` is answered with
success and a restart, but the load that follows returns only 31 bytes `A`. -/
theorem C6_long_ssid_not_returned :
    (handleWiFiConnect (connectRequest (List.replicate 32 65) (lit "pw")) connectedWorld).restarted
        = true
    ∧ (loadWiFiCredentials
        (handleWiFiConnect (connectRequest (List.replicate 32 65) (lit "pw")) connectedWorld).EEPROM
        [] []).2.1 = List.replicate 31 65
    ∧ ¬ (∀ (w : World) (ssid password : AString), IsCStr ssid → IsCStr password →
        (afterAttempt (connectRequest ssid password) w).status.1 = wl_status_t.WL_CONNECTED →
        loadWiFiCredentials (handleWiFiConnect (connectRequest ssid password) w).EEPROM [] []
          = (true, ssid, password)) := by
  have hc : (loadWiFiCredentials
      (handleWiFiConnect (connectRequest (List.replicate 32 65) (lit "pw")) connectedWorld).EEPROM
      [] []).2.1 = List.replicate 31 65 := by decide
  refine ⟨by decide, hc, fun h => ?_⟩
  have h1 := h connectedWorld (List.replicate 32 65) (lit "pw") (by decide) (by decide)
    (by decide)
  rw [h1] at hc
  exact absurd hc (by decide)

/-- C6, amended: for every `POST /connect` carrying `ssid` and `password` whose
attempt reaches connected, the handler writes and commits the credential, then
sends the 200 response with `success=true`, then waits and restarts, in that
order; a following load returns the first 31 bytes of the submitted SSID and the
first 63 bytes of the submitted password, hence exactly the submitted ones when
the SSID is non-empty and they fit in 31 and 63 bytes. -/
theorem C6_connect_success (req : Request) (w : World)
    (hs : req.hasArg (lit "ssid") = true) (hp : req.hasArg (lit "password") = true)
    (hcs : IsCStr (req.arg (lit "ssid"))) (hcp : IsCStr (req.arg (lit "password")))
    (hconn : (afterAttempt req w).status.1 = wl_status_t.WL_CONNECTED) :
    (handleWiFiConnect req w).trace
        = (afterAttempt req w).trace
          ++ [Event.wifiStatus, Event.wifiLocalIP, Event.eepromCommit,
              Event.send 200 (lit "application/json")
                (lit "\x7b\"success\":true,\"message\":\"Connected successfully! Device will restart.\"\x7d"),
              Event.delay 2000, Event.restart]
    ∧ Event.eepromCommit ∉ (afterAttempt req w).trace.drop w.trace.length
    ∧ (handleWiFiConnect req w).EEPROM
        = saveWiFiCredentials w.EEPROM (req.arg (lit "ssid")) (req.arg (lit "password"))
    ∧ (handleWiFiConnect req w).EEPROM.flash = (handleWiFiConnect req w).EEPROM.data
    ∧ loadWiFiCredentials (handleWiFiConnect req w).EEPROM [] []
        = (decide (((req.arg (lit "ssid")).take 31).length > 0),
           (req.arg (lit "ssid")).take 31, (req.arg (lit "password")).take 63)
    ∧ (req.arg (lit "ssid") ≠ [] → (req.arg (lit "ssid")).length ≤ 31 →
        (req.arg (lit "password")).length ≤ 63 →
        loadWiFiCredentials (handleWiFiConnect req w).EEPROM [] []
          = (true, req.arg (lit "ssid"), req.arg (lit "password")))
    ∧ (handleWiFiConnect req w).restarted = true
    ∧ (req.uri = lit "/connect" → req.method = HTTPMethod.HTTP_POST →
        serverHandleClient (some req) w = handleWiFiConnect req w) := by
  obtain ⟨ms, waits, calls, heq, hcalls⟩ :=
    connectAttempt_frame 30 (req.arg (lit "ssid")) (req.arg (lit "password")) w
  have heq2 : afterAttempt req w = w.after ms waits calls := heq
  have hE : (handleWiFiConnect req w).EEPROM
      = saveWiFiCredentials w.EEPROM (req.arg (lit "ssid")) (req.arg (lit "password")) := by
    rw [handleWiFiConnect_eq req w hs hp, connectOutcome_success _ _ _ hconn, heq2]
    rfl
  refine ⟨?_, ?_, hE, ?_, ?_, ?_, ?_, dispatch_connect req w⟩
  · rw [handleWiFiConnect_eq req w hs hp, connectOutcome_success _ _ _ hconn]
    rfl
  · rw [heq2]
    simp only [World.after, List.drop_left]
    exact fun hmem => (hcalls _ hmem).2 rfl
  · rw [hE, save_flash]
  · rw [hE, load_save _ _ _ _ _ hcs hcp]
  · intro hne h31 h63
    rw [hE]
    exact load_save_fits _ _ _ _ _ hcs hcp hne h31 h63
  · rw [handleWiFiConnect_eq req w hs hp, connectOutcome_success _ _ _ hconn]

theorem C6_connect_success_witness :
    (handleWiFiConnect (connectRequest (lit "Home") (lit "secret123")) connectedWorld).restarted
        = true
    ∧ loadWiFiCredentials
        (handleWiFiConnect (connectRequest (lit "Home") (lit "secret123")) connectedWorld).EEPROM
        [] [] = (true, lit "Home", lit "secret123") := by
  have h := C6_connect_success (connectRequest (lit "Home") (lit "secret123")) connectedWorld
    (by decide) (by decide) (by decide) (by decide) (by decide)
  exact ⟨h.2.2.2.2.2.2.1, h.2.2.2.2.2.1 (by decide) (by decide) (by decide)⟩

/-- The failure branch of `handleWiFiConnect`: when the check after the loop does
not read connected and the status read after the access point is set up anew is
`s`, the handler makes the calls `failureCalls s` and changes neither the member
variables nor the storage; no restart is among its calls. -/
theorem failure_branch_frame (req : Request) (w : World) (s : wl_status_t)
    (hs : req.hasArg (lit "ssid") = true) (hp : req.hasArg (lit "password") = true)
    (hfail : (afterAttempt req w).status.1 ≠ wl_status_t.WL_CONNECTED)
    (hclass : (afterAttempt req w).wlStatus ((afterAttempt req w).epoch + 1) = s) :
    (handleWiFiConnect req w).trace = (afterAttempt req w).trace ++ failureCalls s
    ∧ (handleWiFiConnect req w).isConfigMode = w.isConfigMode
    ∧ (handleWiFiConnect req w).configModeStartTime = w.configModeStartTime
    ∧ (handleWiFiConnect req w).EEPROM = w.EEPROM
    ∧ (handleWiFiConnect req w).restarted = w.restarted
    ∧ Event.restart ∉ (handleWiFiConnect req w).trace.drop w.trace.length := by
  obtain ⟨ms, waits, calls, heq, hcalls⟩ :=
    connectAttempt_frame 30 (req.arg (lit "ssid")) (req.arg (lit "password")) w
  have heq2 : afterAttempt req w = w.after ms waits calls := heq
  have hh : handleWiFiConnect req w
      = (w.after ms waits calls).after 100 1 (failureCalls s) := by
    rw [handleWiFiConnect_eq req w hs hp, connectOutcome_failure _ _ _ hfail, hclass, heq2]
  have hno : Event.restart ∉ failureCalls s := by
    simp [failureCalls]
  refine ⟨?_, ?_, ?_, ?_, ?_, ?_⟩
  · rw [hh, heq2]
    rfl
  · rw [hh]
    rfl
  · rw [hh]
    rfl
  · rw [hh]
    rfl
  · rw [hh]
    rfl
  · rw [hh, after_after]
    simp only [World.after, List.drop_left, List.mem_append, not_or]
    exact ⟨fun hmem => (hcalls _ hmem).1 rfl, hno⟩

/-! ## Lemmas on the session variables -/

theorem SameSession.refl (w : World) : SameSession w w := ⟨rfl, rfl⟩

theorem SameSession.trans {a b c : World} (h1 : SameSession a b) (h2 : SameSession b c) :
    SameSession a c :=
  ⟨h2.1.trans h1.1, h2.2.trans h1.2⟩

theorem sameSession_after (w : World) (ms waits : Nat) (calls : List Event) :
    SameSession w (w.after ms waits calls) := ⟨rfl, rfl⟩

theorem sameSession_handleWiFiScan (w : World) : SameSession w (handleWiFiScan w) := by
  simp [SameSession, handleWiFiScan, tryScan, getWiFiScanResults, World.emit, World.delay]

theorem sameSession_handleWiFiConnect (req : Request) (w : World) :
    SameSession w (handleWiFiConnect req w) := by
  by_cases hargs : req.hasArg (lit "ssid") = true ∧ req.hasArg (lit "password") = true
  · obtain ⟨ms, waits, calls, heq, _⟩ :=
      connectAttempt_frame 30 (req.arg (lit "ssid")) (req.arg (lit "password")) w
    have heq2 : afterAttempt req w = w.after ms waits calls := heq
    rw [handleWiFiConnect_eq req w hargs.1 hargs.2]
    by_cases hc : (afterAttempt req w).status.1 = wl_status_t.WL_CONNECTED
    · rw [connectOutcome_success _ _ _ hc, heq2]
      exact ⟨rfl, rfl⟩
    · rw [connectOutcome_failure _ _ _ hc, heq2]
      exact ⟨rfl, rfl⟩
  · have h2 : (!req.hasArg (lit "ssid") || !req.hasArg (lit "password")) = true := by
      cases h1 : req.hasArg (lit "ssid") <;> cases h3 : req.hasArg (lit "password") <;>
        simp_all
    simp only [handleWiFiConnect, handleWiFiConnectWith, h2, if_true]
    exact ⟨rfl, rfl⟩

theorem sameSession_serverHandleClient (pending : Option Request) (w : World) :
    SameSession w (serverHandleClient pending w) := by
  cases pending with
  | none => exact SameSession.refl w
  | some req =>
    simp only [serverHandleClient]
    split_ifs
    · exact ⟨rfl, rfl⟩
    · exact sameSession_handleWiFiScan w
    · exact ⟨rfl, rfl⟩
    · exact ⟨rfl, rfl⟩
    · exact sameSession_handleWiFiConnect req w
    · exact ⟨rfl, rfl⟩

theorem sameSession_served (pending : Option Request) (w : World) :
    SameSession w (served pending w) :=
  SameSession.trans (sameSession_after w 0 0 [Event.dnsProcessNextRequest])
    (by
      have h := sameSession_serverHandleClient pending (w.emit Event.dnsProcessNextRequest)
      rw [emit_eq_after] at h
      simpa [served, emit_eq_after] using h)

theorem handleClient_eq (pending : Option Request) (w : World) (hmode : w.isConfigMode = true) :
    handleClient pending w
      = if (served pending w).restarted then served pending w
        else if sub32 (served pending w).millis w.configModeStartTime > CONFIG_MODE_TIMEOUT
          then (served pending w).restart
        else served pending w := by
  have h := (sameSession_served pending w).2
  simp only [handleClient, hmode, if_true]
  rw [show serverHandleClient pending (w.emit Event.dnsProcessNextRequest) = served pending w
    from rfl, h]

theorem sameSession_handleClient (pending : Option Request) (w : World) :
    SameSession w (handleClient pending w) := by
  by_cases hmode : w.isConfigMode = true
  · rw [handleClient_eq pending w hmode]
    split_ifs
    · exact sameSession_served pending w
    · exact SameSession.trans (sameSession_served pending w) ⟨rfl, rfl⟩
    · exact sameSession_served pending w
  · simp only [handleClient, hmode]
    exact SameSession.refl w

theorem sameSession_runTick (t : Tick) (w : World) : SameSession w (runTick t w) := by
  by_cases hr : w.restarted = true
  · simp only [runTick, hr, if_true]
    exact SameSession.refl w
  · have h1 : SameSession w (w.idle t.elapsed t.waits) := ⟨rfl, rfl⟩
    rw [runTick, if_neg hr]
    exact SameSession.trans h1 (sameSession_handleClient _ _)

theorem sameSession_runTicks (ts : List Tick) (w : World) : SameSession w (runTicks ts w) := by
  induction ts generalizing w with
  | nil => exact SameSession.refl w
  | cons t ts ih =>
    exact SameSession.trans (sameSession_runTick t w) (by simpa [runTicks] using ih (runTick t w))

theorem sub32_elapsed (T d : Nat) (hd : d < 2 ^ 32) :
    sub32 ((T + d) % 2 ^ 32) (T % 2 ^ 32) = d := by
  simp only [sub32]
  norm_num at hd ⊢
  omega

/-! ## The config-portal deadline and entry time -/

/-- C8, as stated, fails: config mode entered at `millis() = 1000`, a tick with no
pending request at 301000, that is with exactly 300000 ms elapsed, does not restart
the device. -/
theorem C8_no_restart_at_exact_timeout :
    (handleClient none (portalWorld 1000 301000)).restarted = false
    ∧ ¬ (∀ (w : World) (T d : Nat), w.isConfigMode = true → w.restarted = false →
        w.configModeStartTime = T % 2 ^ 32 → w.clock = T + d → d < 2 ^ 32 →
        d ≥ CONFIG_MODE_TIMEOUT → (handleClient none w).restarted = true) := by
  have hc : (handleClient none (portalWorld 1000 301000)).restarted = false := by decide
  refine ⟨hc, fun h => ?_⟩
  have h1 := h (portalWorld 1000 301000) 1000 300000 (by decide) (by decide) (by decide)
    (by decide) (by decide) (by decide)
  rw [h1] at hc
  exact absurd hc (by decide)

/-- C8, amended: for every entry time `T` and every tick delivered in config mode,
with or without a pending request, `handleClient` restarts the device exactly when
the time elapsed since entry, measured when the check is made as a difference of
the 32-bit millisecond counter (also across a wrap-around of that counter), is
strictly greater than 300000 ms. -/
theorem C8_timeout_strict (w : World) (pending : Option Request) (T d : Nat)
    (hmode : w.isConfigMode = true)
    (hT : w.configModeStartTime = T % 2 ^ 32)
    (hrun : (served pending w).restarted = false)
    (hclock : (served pending w).clock = T + d) (hd : d < 2 ^ 32) :
    ((handleClient pending w).restarted = true ↔ 300000 < d)
    ∧ (300000 < d → (handleClient pending w).trace
        = (served pending w).trace ++ [Event.restart]) := by
  have hsub : sub32 (served pending w).millis w.configModeStartTime = d := by
    rw [World.millis, hclock, hT]
    exact sub32_elapsed T d hd
  rw [handleClient_eq pending w hmode, hsub]
  simp only [hrun, Bool.false_eq_true, if_false, CONFIG_MODE_TIMEOUT]
  by_cases h : d > 300000
  · rw [if_pos h]
    exact ⟨⟨fun _ => h, fun _ => rfl⟩, fun _ => rfl⟩
  · rw [if_neg h, hrun]
    exact ⟨⟨fun h2 => absurd h2 (by decide), fun h2 => absurd h2 h⟩, fun h2 => absurd h2 h⟩

theorem C8_timeout_strict_witness :
    (handleClient none (portalWorld (2 ^ 32 - 1) (2 ^ 32 - 1 + 300001))).restarted = true :=
  (C8_timeout_strict (portalWorld (2 ^ 32 - 1) (2 ^ 32 - 1 + 300001)) none (2 ^ 32 - 1) 300001
    (by decide) (by decide) (by decide) (by decide) (by decide)).1.mpr (by decide)

/-- C9: `startConfigMode` records `millis()` as the entry time, and no tick
changes it: after every sequence of ticks, whatever request each of them serves
(page, scan, status, debug, unknown route, connect), `configModeStartTime` still
holds the value recorded at entry and `isConfigMode` is still true. -/
theorem C9_entry_time_absolute (w : World) (ts : List Tick) :
    (startConfigMode w).configModeStartTime = w.millis
    ∧ isInConfigMode (startConfigMode w) = true
    ∧ (runTicks ts (startConfigMode w)).configModeStartTime = w.millis
    ∧ isInConfigMode (runTicks ts (startConfigMode w)) = true := by
  have h := sameSession_runTicks ts (startConfigMode w)
  have h0 : (startConfigMode w).configModeStartTime = w.millis := by
    rw [startConfigMode_eq]
  have h1 : (startConfigMode w).isConfigMode = true := by
    rw [startConfigMode_eq]
  exact ⟨h0, h1, h.2.trans h0, h.1.trans h1⟩

/-! ## Leaving the poll loop early, and the reason reported -/

theorem userLoop_early (k : Nat) : ∀ (remaining attempts : Nat) (w : World),
    k < remaining →
    (∀ j, j ≤ k → w.wlStatus (w.epoch + j) ≠ wl_status_t.WL_CONNECTED) →
    (∀ j, 1 ≤ j → j ≤ k → w.wlStatus (w.epoch + j) ≠ wl_status_t.WL_CONNECT_FAILED
      ∧ w.wlStatus (w.epoch + j) ≠ wl_status_t.WL_NO_SSID_AVAIL) →
    (w.wlStatus (w.epoch + (k + 1)) = wl_status_t.WL_CONNECT_FAILED
      ∨ w.wlStatus (w.epoch + (k + 1)) = wl_status_t.WL_NO_SSID_AVAIL) →
    userLoop remaining attempts w
      = (attempts + (k + 1), w.after (500 * (k + 1)) (k + 1)
          (userCalls k ++ ([Event.wifiStatus, Event.delay 500, Event.wifiStatus]
            ++ if w.wlStatus (w.epoch + (k + 1)) = wl_status_t.WL_CONNECT_FAILED then []
               else [Event.wifiStatus]))) := by
  induction k with
  | zero =>
    intro remaining attempts w hk hnc _ hend
    cases remaining with
    | zero => omega
    | succ r =>
      have h0 : w.wlStatus w.epoch ≠ wl_status_t.WL_CONNECTED := by
        simpa using hnc 0 (Nat.le_refl 0)
      rcases hend with h | h
      · simp at h
        simp [userLoop, status_fst, status_snd, delay_eq_after, after_after, World.after, h0, h,
          userCalls]
      · simp at h
        simp [userLoop, status_fst, status_snd, delay_eq_after, after_after, World.after, h0, h,
          userCalls]
  | succ k ih =>
    intro remaining attempts w hk hnc hnf hend
    cases remaining with
    | zero => omega
    | succ r =>
      have h0 : w.wlStatus w.epoch ≠ wl_status_t.WL_CONNECTED := by
        simpa using hnc 0 (Nat.zero_le _)
      have h1 := hnf 1 (Nat.le_refl 1) (by omega)
      have hunf : userLoop (r + 1) attempts w = userLoop r (attempts + 1)
          (w.after 500 1 [Event.wifiStatus, Event.delay 500, Event.wifiStatus,
            Event.wifiStatus]) := by
        simp [userLoop, status_fst, status_snd, delay_eq_after, after_after, World.after, h0,
          h1.1, h1.2]
      have hshift : ∀ j, (w.after 500 1 [Event.wifiStatus, Event.delay 500, Event.wifiStatus,
          Event.wifiStatus]).epoch + j = w.epoch + (j + 1) := by
        intro j
        simp only [World.after]
        omega
      have hst : (w.after 500 1 [Event.wifiStatus, Event.delay 500, Event.wifiStatus,
          Event.wifiStatus]).wlStatus = w.wlStatus := rfl
      have hstep := ih r (attempts + 1)
        (w.after 500 1 [Event.wifiStatus, Event.delay 500, Event.wifiStatus, Event.wifiStatus])
        (by omega)
        (by
          intro j hj
          rw [hshift, hst]
          exact hnc (j + 1) (by omega))
        (by
          intro j hj1 hj
          rw [hshift, hst]
          exact hnf (j + 1) (by omega) (by omega))
        (by
          rw [hshift, hst]
          exact hend)
      rw [hunf, hstep, after_after, hshift, hst]
      refine Prod.ext (by simp; omega) ?_
      apply after_congr
      · omega
      · omega
      · simp [userCalls]

theorem connectAttempt_early (bound : Nat) (ssid password : AString) (w : World) (k : Nat)
    (hk : k < bound)
    (hnc : ∀ j, j ≤ k → pollAt w j ≠ wl_status_t.WL_CONNECTED)
    (hnf : ∀ j, 1 ≤ j → j ≤ k → pollAt w j ≠ wl_status_t.WL_CONNECT_FAILED
      ∧ pollAt w j ≠ wl_status_t.WL_NO_SSID_AVAIL)
    (hend : pollAt w (k + 1) = wl_status_t.WL_CONNECT_FAILED
      ∨ pollAt w (k + 1) = wl_status_t.WL_NO_SSID_AVAIL) :
    connectAttempt bound ssid password w
      = (k + 1, w.after (500 + 500 * (k + 1)) (1 + (k + 1))
          ([Event.wifiMode wifi_mode_t.WIFI_STA, Event.wifiDisconnect, Event.delay 500,
            Event.wifiBegin ssid password]
            ++ (userCalls k ++ ([Event.wifiStatus, Event.delay 500, Event.wifiStatus]
              ++ if pollAt w (k + 1) = wl_status_t.WL_CONNECT_FAILED then []
                 else [Event.wifiStatus])))) := by
  have hw : connectAttempt bound ssid password w = userLoop bound 0
      (w.after 500 1 [Event.wifiMode wifi_mode_t.WIFI_STA, Event.wifiDisconnect,
        Event.delay 500, Event.wifiBegin ssid password]) := by
    simp [connectAttempt, emit_eq_after, delay_eq_after, after_after]
  have hshift : ∀ j, (w.after 500 1 [Event.wifiMode wifi_mode_t.WIFI_STA,
      Event.wifiDisconnect, Event.delay 500, Event.wifiBegin ssid password]).wlStatus
        ((w.after 500 1 [Event.wifiMode wifi_mode_t.WIFI_STA, Event.wifiDisconnect,
          Event.delay 500, Event.wifiBegin ssid password]).epoch + j) = pollAt w j := by
    intro j
    rfl
  rw [hw, userLoop_early k bound 0 _ hk
    (by
      intro j hj
      rw [hshift]
      exact hnc j hj)
    (by
      intro j hj1 hj
      rw [hshift]
      exact hnf j hj1 hj)
    (by
      rw [hshift]
      exact hend), after_after, hshift]
  simp

theorem connectToWiFi_exhausted (w : World) (ssid password : AString)
    (hload : loadWiFiCredentials w.EEPROM [] [] = (true, ssid, password))
    (hnc : ∀ j, j ≤ 20 → w.wlStatus (w.epoch + j) ≠ wl_status_t.WL_CONNECTED) :
    connectToWiFi w = (false, w.after (500 * 20) 20
      ([Event.wifiBegin ssid password] ++ bootCalls 20
        ++ [Event.wifiStatus, Event.wifiStatus])) := by
  have hloop := bootLoop_run 20 20 0 (w.after 0 0 [Event.wifiBegin ssid password])
    (Nat.le_refl 20) (fun j hj => by simpa [World.after] using hnc j (by omega)) (Or.inl rfl)
  have hs : ¬ (w.after (500 * 20) 20
      ([Event.wifiBegin ssid password] ++ (bootCalls 20 ++ [Event.wifiStatus]))).wlStatus
        (w.epoch + 20) = wl_status_t.WL_CONNECTED := hnc 20 (Nat.le_refl 20)
  simp only [connectToWiFi, connectToWiFiWith, hload, emit_eq_after, hloop,
    status_fst, status_snd, after_after, Bool.not_true, Bool.false_eq_true, if_false]
  simp only [World.after, Nat.zero_add, Nat.add_zero] at hs ⊢
  simp [hs]

/-- What the poll loop of `handleWiFiConnect` leaves behind when its poll `k + 1`
is the first to read an authentication failure or a missing SSID: `attempts` is
`k + 1`, the check after the loop does not read connected, and the status read
after the access point is set up anew is that of the next wait period. -/
theorem attempt_early_facts (req : Request) (w : World) (k : Nat)
    (hk : k < 30)
    (hnc : ∀ j, j ≤ k → pollAt w j ≠ wl_status_t.WL_CONNECTED)
    (hnf : ∀ j, 1 ≤ j → j ≤ k → pollAt w j ≠ wl_status_t.WL_CONNECT_FAILED
      ∧ pollAt w j ≠ wl_status_t.WL_NO_SSID_AVAIL)
    (hend : pollAt w (k + 1) = wl_status_t.WL_CONNECT_FAILED
      ∨ pollAt w (k + 1) = wl_status_t.WL_NO_SSID_AVAIL) :
    (connectAttempt 30 (req.arg (lit "ssid")) (req.arg (lit "password")) w).1 = k + 1
    ∧ (afterAttempt req w).epoch = w.epoch + 1 + (k + 1)
    ∧ (afterAttempt req w).status.1 ≠ wl_status_t.WL_CONNECTED
    ∧ (afterAttempt req w).wlStatus ((afterAttempt req w).epoch + 1) = pollAt w (k + 2) := by
  have hatt := connectAttempt_early 30 (req.arg (lit "ssid")) (req.arg (lit "password")) w k
    hk hnc hnf hend
  have hafter : afterAttempt req w = (connectAttempt 30 (req.arg (lit "ssid"))
      (req.arg (lit "password")) w).2 := rfl
  have hepoch : (afterAttempt req w).epoch = w.epoch + 1 + (k + 1) := by
    rw [hafter, hatt]
    simp only [World.after]
    omega
  have hst : (afterAttempt req w).wlStatus = w.wlStatus := by
    rw [hafter, hatt]
    rfl
  refine ⟨by rw [hatt], hepoch, ?_, ?_⟩
  · rw [status_fst, hst, hepoch]
    have hp1 : w.wlStatus (w.epoch + 1 + (k + 1)) = pollAt w (k + 1) := rfl
    rw [hp1]
    rcases hend with h | h <;> rw [h] <;> decide
  · rw [hst, hepoch]
    simp only [pollAt]
    congr 1

theorem getLast_failureCalls (t : List Event) (s : wl_status_t) :
    (t ++ failureCalls s).getLast?
      = some (Event.send 200 (lit "application/json") (failureBody s)) := by
  simp [failureCalls]

theorem failureBody_wrong_iff (s : wl_status_t) :
    failureBody s
        = lit "\x7b\"success\":false,\"message\":\"Failed to connect. Wrong password?\"\x7d"
      ↔ s = wl_status_t.WL_CONNECT_FAILED := by
  cases s <;> decide

/-- C7, on the code: in config mode, for every `POST /connect` whose poll loop is
left on an authentication failure (the poll for which the source logs `wrong
password?`), the handler switches back to AP mode, configures and starts the soft
AP and restarts the DNS responder, and only then sends status 200; the device stays
in config mode and no restart is triggered.  But the message of that response is
chosen from the status read after the access point is set up anew: the body is
`{"success":false,"message":"Failed to connect. Wrong password?"}` only if that
later read still returns the authentication failure. -/
theorem C7_failure_reason_from_later_read (req : Request) (w : World) (k : Nat)
    (hs : req.hasArg (lit "ssid") = true) (hp : req.hasArg (lit "password") = true)
    (hmode : w.isConfigMode = true) (hr : w.restarted = false)
    (hk : k < 30)
    (hnc : ∀ j, j ≤ k → pollAt w j ≠ wl_status_t.WL_CONNECTED)
    (hnf : ∀ j, 1 ≤ j → j ≤ k → pollAt w j ≠ wl_status_t.WL_CONNECT_FAILED
      ∧ pollAt w j ≠ wl_status_t.WL_NO_SSID_AVAIL)
    (hend : pollAt w (k + 1) = wl_status_t.WL_CONNECT_FAILED) :
    (connectAttempt 30 (req.arg (lit "ssid")) (req.arg (lit "password")) w).1 = k + 1
    ∧ (handleWiFiConnect req w).trace
        = (afterAttempt req w).trace
          ++ [Event.wifiStatus, Event.wifiStatus, Event.wifiMode wifi_mode_t.WIFI_AP,
              Event.delay 100, Event.softAPConfig AP_IP AP_GATEWAY AP_SUBNET,
              Event.softAP AP_SSID AP_PASSWORD, Event.dnsStart 53 (lit "*") AP_IP,
              Event.wifiStatus,
              Event.send 200 (lit "application/json") (failureBody (pollAt w (k + 2)))]
    ∧ ((handleWiFiConnect req w).trace.getLast?
          = some (Event.send 200 (lit "application/json")
              (lit "\x7b\"success\":false,\"message\":\"Failed to connect. Wrong password?\"\x7d"))
        ↔ pollAt w (k + 2) = wl_status_t.WL_CONNECT_FAILED)
    ∧ isInConfigMode (handleWiFiConnect req w) = true
    ∧ (handleWiFiConnect req w).configModeStartTime = w.configModeStartTime
    ∧ (handleWiFiConnect req w).EEPROM = w.EEPROM
    ∧ (handleWiFiConnect req w).restarted = false
    ∧ Event.restart ∉ (handleWiFiConnect req w).trace.drop w.trace.length
    ∧ (req.uri = lit "/connect" → req.method = HTTPMethod.HTTP_POST →
        serverHandleClient (some req) w = handleWiFiConnect req w) := by
  have hf := attempt_early_facts req w k hk hnc hnf (Or.inl hend)
  have hb := failure_branch_frame req w (pollAt w (k + 2)) hs hp hf.2.2.1 hf.2.2.2
  refine ⟨hf.1, hb.1, ?_, ?_, hb.2.2.1, hb.2.2.2.1, ?_, hb.2.2.2.2.2, dispatch_connect req w⟩
  · rw [hb.1, getLast_failureCalls]
    constructor
    · intro h
      have h2 : failureBody (pollAt w (k + 2))
          = lit "\x7b\"success\":false,\"message\":\"Failed to connect. Wrong password?\"\x7d" := by
        injection h with h1
        injection h1
      exact (failureBody_wrong_iff _).mp h2
    · intro h
      rw [(failureBody_wrong_iff _).mpr h]
  · rw [isInConfigMode, hb.2.1]
    exact hmode
  · rw [hb.2.2.2.2.1]
    exact hr

/-- The scenario of C7 on `flipWorld`: `Guest` / `wrong`, the loop left on an
authentication failure, the general message sent. -/
theorem C7_failure_reason_from_later_read_witness :
    pollAt flipWorld 1 = wl_status_t.WL_CONNECT_FAILED
    ∧ (connectAttempt 30 (lit "Guest") (lit "wrong") flipWorld).1 = 1
    ∧ (handleWiFiConnect (connectRequest (lit "Guest") (lit "wrong")) flipWorld).trace.getLast?
        ≠ some (Event.send 200 (lit "application/json")
            (lit "\x7b\"success\":false,\"message\":\"Failed to connect. Wrong password?\"\x7d"))
    ∧ (handleWiFiConnect (connectRequest (lit "Guest") (lit "wrong")) flipWorld).trace.getLast?
        = some (Event.send 200 (lit "application/json")
            (lit "\x7b\"success\":false,\"message\":\"Failed to connect. Please check credentials.\"\x7d"))
    ∧ isInConfigMode (handleWiFiConnect (connectRequest (lit "Guest") (lit "wrong")) flipWorld)
        = true
    ∧ (handleWiFiConnect (connectRequest (lit "Guest") (lit "wrong")) flipWorld).restarted
        = false := by
  have h := C7_failure_reason_from_later_read (connectRequest (lit "Guest") (lit "wrong"))
    flipWorld 0 (by decide) (by decide) (by decide) (by decide) (by decide) (by decide)
    (by decide) (by decide)
  refine ⟨by decide, h.1, ?_, ?_, h.2.2.2.1, h.2.2.2.2.2.2.1⟩
  · exact fun hw => absurd (h.2.2.1.mp hw) (by decide)
  · rw [h.2.1]
    decide

/-- C10, on the code: in `flipWorld` the attempt for `Guest` / `wrong` leaves the
loop at its first poll after a wait, which reads an authentication failure, yet the
message sent is the general one and not the one for wrong credentials: the status
is read again only after the access point has been set up anew, and the reason of
the poll that ended the loop is lost. -/
theorem C10_reason_read_after_rearm :
    pollAt flipWorld 1 = wl_status_t.WL_CONNECT_FAILED
    ∧ (connectAttempt 30 (lit "Guest") (lit "wrong") flipWorld).1 = 1
    ∧ (handleWiFiConnect (connectRequest (lit "Guest") (lit "wrong")) flipWorld).trace.getLast?
        = some (Event.send 200 (lit "application/json")
            (lit "\x7b\"success\":false,\"message\":\"Failed to connect. Please check credentials.\"\x7d"))
    ∧ ¬ (∀ (w : World) (req : Request),
        req.hasArg (lit "ssid") = true → req.hasArg (lit "password") = true →
        pollAt w 0 ≠ wl_status_t.WL_CONNECTED →
        pollAt w 1 = wl_status_t.WL_CONNECT_FAILED →
        (handleWiFiConnect req w).trace.getLast?
          = some (Event.send 200 (lit "application/json")
              (lit "\x7b\"success\":false,\"message\":\"Failed to connect. Wrong password?\"\x7d"))) := by
  have hc : (handleWiFiConnect (connectRequest (lit "Guest") (lit "wrong"))
      flipWorld).trace.getLast?
        = some (Event.send 200 (lit "application/json")
            (lit "\x7b\"success\":false,\"message\":\"Failed to connect. Please check credentials.\"\x7d")) := by
    decide
  refine ⟨by decide, by decide, hc, fun h => ?_⟩
  have h1 := h flipWorld (connectRequest (lit "Guest") (lit "wrong")) (by decide) (by decide)
    (by decide) (by decide)
  rw [h1] at hc
  exact absurd hc (by decide)

/-! ## Lemmas on the scan -/

theorem intercalate_concat {α : Type} (sep : List α) (l : List (List α)) (x : List α)
    (hl : l ≠ []) :
    List.intercalate sep (l ++ [x]) = List.intercalate sep l ++ (sep ++ x) := by
  induction l with
  | nil => exact absurd rfl hl
  | cons a l ih =>
    cases l with
    | nil => simp [List.intercalate, List.intersperse]
    | cons b l =>
      have ih2 := ih (by simp)
      simp only [List.intercalate, List.cons_append, List.intersperse, List.flatten_cons,
        List.append_assoc] at ih2 ⊢
      exact congrArg (fun t => a ++ (sep ++ t)) ih2

theorem scanEntry_eq (r : ScanReport) (i : Nat) (json : AString) :
    scanEntry r i json
      = json ++ ((if i > 0 then lit "," else [])
          ++ specEntry ⟨r.SSID i, r.RSSI i, r.encryptionType i⟩) := by
  simp only [scanEntry, specEntry, specSecurity]
  by_cases h : i > 0
  · simp only [h, if_true, List.append_assoc]
    rfl
  · simp only [h, if_false, List.append_assoc, List.nil_append]
    rfl

theorem scanLoop_eq (r : ScanReport) (nets : List NetworkObservation) (h : Reports r nets)
    (pre : AString) (k : Nat) (hk : k ≤ nets.length) :
    forLoop k (scanEntry r) pre
      = pre ++ List.intercalate (lit ",") ((nets.take k).map specEntry) := by
  induction k with
  | zero => simp [forLoop, List.intercalate]
  | succ k ih =>
    have hlt : k < nets.length := by omega
    have hget : nets[k]? = some nets[k] := List.getElem?_eq_getElem hlt
    obtain ⟨h1, h2, h3⟩ := h.2 k nets[k] hget
    have hentry : specEntry ⟨nets[k].ssid, nets[k].rssi, nets[k].encryption⟩
        = specEntry nets[k] := rfl
    rw [forLoop_succ, ih (by omega), scanEntry_eq, h1, h2, h3, hentry, List.take_succ, hget]
    simp only [Option.toList, List.map_append, List.map_cons, List.map_nil]
    cases k with
    | zero => simp [List.intercalate]
    | succ j =>
      have hne : List.map specEntry (List.take (j + 1) nets) ≠ [] := by
        intro hnil
        have hlen := congrArg List.length hnil
        simp only [List.length_map, List.length_take, List.length_nil] at hlen
        omega
      rw [intercalate_concat _ _ _ hne]
      simp [List.append_assoc]

theorem reports_reportOf (nets : List NetworkObservation) : Reports (reportOf nets) nets := by
  refine ⟨rfl, ?_⟩
  intro i o h
  simp [reportOf, h]

theorem specScanJson_nil : specScanJson [] = lit "\x7b\"networks\":[]\x7d" := by
  decide

theorem getWiFiScanResults_of_reports (w : World) (nets : List NetworkObservation)
    (h : Reports (w.scans w.scanCount) nets) :
    (getWiFiScanResults w).1 = specScanJson nets := by
  have hn : (w.scans w.scanCount).n = nets.length := h.1
  simp only [getWiFiScanResults, World.emit, World.delay, hn, specScanJson]
  by_cases hpos : (nets.length : Int) > 0
  · simp only [hpos, if_true, Int.toNat_ofNat]
    rw [scanLoop_eq _ nets h _ nets.length (Nat.le_refl _), List.take_length]
  · have hnil : nets = [] := by
      cases nets with
      | nil => rfl
      | cons a l =>
        exfalso
        apply hpos
        simp only [List.length_cons]
        omega
    subst hnil
    simp [List.intercalate]

theorem getWiFiScanResults_of_failed (w : World) (h : (w.scans w.scanCount).n ≤ 0) :
    (getWiFiScanResults w).1 = lit "\x7b\"networks\":[]\x7d" := by
  have hpos : ¬ (w.scans w.scanCount).n > 0 := by omega
  simp only [getWiFiScanResults, World.emit, World.delay, hpos, if_false]
  decide

theorem handleWiFiScan_eq (w : World) :
    handleWiFiScan w
      = { w with scanCount := w.scanCount + 1, clock := w.clock + 100 + 100,
                 epoch := w.epoch + 1 + 1,
                 trace := w.trace ++ scanCalls (getWiFiScanResults w).1 } := by
  simp [handleWiFiScan, tryScan, getWiFiScanResults, World.emit, World.delay, scanCalls]

/-! ## The scan request -/

/-- C12: for every list of networks the radio reports, `getWiFiScanResults`
returns `{"networks":[e_0,...,e_(n-1)]}` with one entry
`{"ssid":"<ssid>","rssi":<rssi>,"security":"<sec>"}` per network, separated by
commas and in the reported order; `<sec>` is `Open` exactly for the open encryption
type and `Secured` otherwise; for no networks the result is `{"networks":[]}`; and
`handleWiFiScan` sends that body with status 200. -/
theorem C12_scan_serialization (w : World) (nets : List NetworkObservation)
    (h : Reports (w.scans w.scanCount) nets) :
    (getWiFiScanResults w).1 = specScanJson nets
    ∧ (nets = [] → (getWiFiScanResults w).1 = lit "\x7b\"networks\":[]\x7d")
    ∧ (handleWiFiScan w).trace = w.trace ++ scanCalls (specScanJson nets)
    ∧ (handleWiFiScan w).trace.getLast?
        = some (Event.send 200 (lit "application/json") (specScanJson nets))
    ∧ (∀ encryption : wifi_auth_mode_t,
        (specSecurity encryption = lit "Open" ↔ encryption = WIFI_AUTH_OPEN)
        ∧ (specSecurity encryption = lit "Secured" ↔ encryption ≠ WIFI_AUTH_OPEN)) := by
  have hjson := getWiFiScanResults_of_reports w nets h
  have htrace : (handleWiFiScan w).trace = w.trace ++ scanCalls (specScanJson nets) := by
    rw [handleWiFiScan_eq, hjson]
  refine ⟨hjson, ?_, htrace, ?_, ?_⟩
  · intro hnil
    rw [hjson, hnil, specScanJson_nil]
  · rw [htrace]
    simp [scanCalls]
  · intro encryption
    by_cases he : encryption = WIFI_AUTH_OPEN
    · simp only [specSecurity, he, if_true, true_iff, ne_eq, not_true_eq_false, iff_false]
      decide
    · simp only [specSecurity, he, if_false, iff_false, ne_eq, not_false_eq_true, iff_true]
      decide

/-- The scan of C12 on two networks, and on none. -/
theorem C12_scan_serialization_witness :
    (getWiFiScanResults (scanWorld twoNetworks)).1
        = lit "\x7b\"networks\":[\x7b\"ssid\":\"Cafe\",\"rssi\":-40,\"security\":\"Open\"\x7d,\x7b\"ssid\":\"Home\",\"rssi\":-71,\"security\":\"Secured\"\x7d]\x7d"
    ∧ (getWiFiScanResults (scanWorld [])).1 = lit "\x7b\"networks\":[]\x7d" := by
  have h2 := C12_scan_serialization (scanWorld twoNetworks) twoNetworks
    (reports_reportOf twoNetworks)
  have h0 := C12_scan_serialization (scanWorld []) [] (reports_reportOf [])
  refine ⟨?_, h0.2.1 rfl⟩
  rw [h2.1]
  decide

/-- C13, on the code: when the scan call reports failure by a negative count,
`handleWiFiScan` restores the access point and returns normally, but it sends
status 200 with the plain body `{"networks":[]}`, the same as for a scan that found
no network; no response with status 500 and no error flag is sent. -/
theorem C13_scan_failure_sent_as_empty (w : World) (h : (w.scans w.scanCount).n < 0) :
    (handleWiFiScan w).trace = w.trace ++ scanCalls (lit "\x7b\"networks\":[]\x7d")
    ∧ (handleWiFiScan w).trace.getLast?
        = some (Event.send 200 (lit "application/json") (lit "\x7b\"networks\":[]\x7d"))
    ∧ Event.send 500 (lit "application/json") scanFailedBody
        ∉ (handleWiFiScan w).trace.drop w.trace.length
    ∧ (∀ code contentType body, Event.send code contentType body
        ∈ (handleWiFiScan w).trace.drop w.trace.length → code = 200)
    ∧ (handleWiFiScan w).restarted = w.restarted
    ∧ (handleWiFiScan w).isConfigMode = w.isConfigMode := by
  have hjson := getWiFiScanResults_of_failed w (by omega)
  have htrace : (handleWiFiScan w).trace
      = w.trace ++ scanCalls (lit "\x7b\"networks\":[]\x7d") := by
    rw [handleWiFiScan_eq, hjson]
  refine ⟨htrace, ?_, ?_, ?_, ?_, ?_⟩
  · rw [htrace]
    simp [scanCalls]
  · rw [htrace, List.drop_left]
    decide
  · intro code contentType body hmem
    rw [htrace, List.drop_left] at hmem
    simp only [scanCalls, List.mem_cons, List.mem_singleton, Event.send.injEq, reduceCtorEq,
      false_or, List.not_mem_nil, or_false] at hmem
    exact hmem.1
  · rw [handleWiFiScan_eq]
  · rw [handleWiFiScan_eq]

/-- The failed scan of C13: the radio returns `WIFI_SCAN_FAILED`. -/
theorem C13_scan_failure_sent_as_empty_witness :
    (handleWiFiScan scanFailedWorld).trace.getLast?
        = some (Event.send 200 (lit "application/json") (lit "\x7b\"networks\":[]\x7d"))
    ∧ Event.send 500 (lit "application/json") scanFailedBody
        ∉ (handleWiFiScan scanFailedWorld).trace.drop scanFailedWorld.trace.length := by
  have h := C13_scan_failure_sent_as_empty scanFailedWorld (by decide)
  exact ⟨h.2.1, h.2.2.1⟩


/-! ## A poll loop with no attempts -/

end ModernWiFiManager
